import Mathlib

/-!
Shallow embedding of `src/tutorial-2.c`: matrix multiplication through OpenCL.

* The kernel `matrix_multiply` (the OpenCL C text held in `program_source`, lines 6-19) becomes
  a function on buffers.  A `__global float *` buffer is a list of elements; the elements live
  in an exact arithmetic `α` (any type with `0`, `+`, `*`) instead of 32-bit floats.  A load or
  store outside a buffer makes the work-item fail (`none`).  The `int` variables of the kernel
  hold 32-bit two's complement values: the conversion of a global id and every arithmetic result
  (`*`, `+`, `i++`) is wrapped into `-2^31 .. 2^31 - 1` (`wrap32`).
* The host program `main` (lines 21-156) becomes a function from the answers of the OpenCL
  runtime (one answer per call site, `Runtime`) to the sequence of runtime calls it issues, the
  lines it prints and the value it returns.  A `goto error` ends the pipeline part
  (`main_body`); `cleanup` is the code after the label `error:`.  The contents of the host
  matrices (lines 45-54, floating point) and their `free` are left out: no call of the runtime
  depends on them.
-/

namespace Tutorial2

/-! ## The kernel (lines 6-19) -/

section Kernel

variable {α : Type}

/-- The value a 32-bit `int` holds after an arithmetic result `x`: two's complement
wrap-around into `-2^31 .. 2^31 - 1`. -/
def wrap32 (x : Int) : Int := (x + 2147483648) % 4294967296 - 2147483648

/-- Read of `buf[idx]` with an `int` index; `none` when `idx` is outside the buffer. -/
def load (buf : List α) (idx : Int) : Option α :=
  if 0 ≤ idx then buf[idx.toNat]? else none

/-- Write `buf[idx] = v` with an `int` index; `none` when `idx` is outside the buffer. -/
def store (buf : List α) (idx : Int) (v : α) : Option (List α) :=
  if 0 ≤ idx ∧ idx.toNat < buf.length then some (buf.set idx.toNat v) else none

/-- Index expression of line 15, `row * width_A + i`, in 32-bit `int` arithmetic. -/
def index_A (row width_A i : Int) : Int := wrap32 (wrap32 (row * width_A) + i)

/-- Index expression of line 15, `i * width_B + col`, in 32-bit `int` arithmetic. -/
def index_B (i width_B col : Int) : Int := wrap32 (wrap32 (i * width_B) + col)

/-- Index expression of line 18, `row * width_B + col`, in 32-bit `int` arithmetic. -/
def index_C (row width_B col : Int) : Int := wrap32 (wrap32 (row * width_B) + col)

/-- Lines 14-16: `for (int i = ..; i < width_A; i++) sum += input_A[..] * input_B[..];`,
entered with the current `i` and `sum`; `i++` is a 32-bit increment.  The first argument bounds
the number of times the loop condition is tested; `none` is returned when it does not suffice
or when a load is out of bounds. -/
def matrix_multiply_loop [Add α] [Mul α] (width_A width_B row col : Int)
    (input_A input_B : List α) : Nat → Int → α → Option α
  | 0, _, _ => none
  | fuel + 1, i, sum =>
    if i < width_A then
      match load input_A (index_A row width_A i), load input_B (index_B i width_B col) with
      | some a, some b =>
        matrix_multiply_loop width_A width_B row col input_A input_B fuel (wrap32 (i + 1))
          (sum + a * b)
      | _, _ => none
    else some sum

/-- One work-item of the kernel `matrix_multiply` (lines 7-19); the parameters are those of the
kernel, in its order, preceded by the work-item function `get_global_id`.  The `int` parameters
hold 32-bit values; `row` and `col` are the global ids converted to 32-bit `int`.  The result
is the contents of `output_C` after the work-item. -/
def matrix_multiply [Zero α] [Add α] [Mul α] (get_global_id : Nat → Nat)
    (output_C : List α) (width_A height_A width_B height_B : Int)
    (input_A input_B : List α) : Option (List α) :=
  let row : Int := wrap32 (get_global_id 1)
  let col : Int := wrap32 (get_global_id 0)
  match matrix_multiply_loop width_A width_B row col input_A input_B (width_A.toNat + 1) 0 0 with
  | some sum => store output_C (index_C row width_B col) sum
  | none => none

/-- The parameter names of the kernel signature, line 7. -/
inductive KernelParam where
  | output_C
  | width_A
  | height_A
  | width_B
  | height_B
  | input_A
  | input_B
  deriving DecidableEq, Repr

/-- The two parameter types of the kernel signature: `__global float *` and `int`. -/
inductive ParamType where
  | global_float_ptr
  | int
  deriving DecidableEq, Repr

/-- The parameter list of `matrix_multiply`, line 7, in order. -/
def matrix_multiply_params : List (KernelParam × ParamType) :=
  [(.output_C, .global_float_ptr), (.width_A, .int), (.height_A, .int), (.width_B, .int),
   (.height_B, .int), (.input_A, .global_float_ptr), (.input_B, .global_float_ptr)]

/-- The function `get_global_id` as a work-item `(id in dimension 0, id in dimension 1)` of a
2-D range sees it. -/
def get_global_id (item : Nat × Nat) (dimindx : Nat) : Nat :=
  if dimindx = 0 then item.1 else if dimindx = 1 then item.2 else 0

/-- Execution of a kernel by the work-items of a schedule, one after the other, on the output
buffer. -/
def runWorkItems (kernel : (Nat → Nat) → List α → Option (List α)) :
    List (Nat × Nat) → List α → Option (List α)
  | [], output => some output
  | item :: rest, output =>
    match kernel (get_global_id item) output with
    | some output' => runWorkItems kernel rest output'
    | none => none

/-- The work-items of a 2-D range of the given global work size. -/
def workItems (global_work_size_0 global_work_size_1 : Nat) : List (Nat × Nat) :=
  List.product (List.range global_work_size_0) (List.range global_work_size_1)

/-- Reference dot product: the left-to-right sum, starting from `0`, over `i = 0 .. width_A - 1`
of `input_A[row * width_A + i] * input_B[i * width_B + col]`. -/
def dotProductRef [Zero α] [Add α] [Mul α] (input_A input_B : List α)
    (width_A width_B row col : Nat) : α :=
  (List.range width_A).foldl
    (fun sum i => sum + input_A.getD (row * width_A + i) 0 * input_B.getD (i * width_B + col) 0) 0

/-- The `n x n` identity matrix, row-major. -/
def identityMatrix [Zero α] [One α] (n : Nat) : List α :=
  (List.range (n * n)).map (fun k => if k / n = k % n then 1 else 0)

end Kernel

/-! ## The host program (lines 21-156) -/

/-- Status `CL_SUCCESS`. -/
def CL_SUCCESS : Int := 0

/-- The null handle. -/
def NULL : Nat := 0

/-- The value `CL_TRUE` of a blocking flag. -/
def CL_TRUE : Bool := true

/-- Device types requested from `clGetDeviceIDs`. -/
inductive DeviceType where
  | CL_DEVICE_TYPE_GPU
  deriving DecidableEq, Repr

/-- Access flags of `clCreateBuffer`. -/
inductive MemFlags where
  | CL_MEM_READ_ONLY
  | CL_MEM_WRITE_ONLY
  deriving DecidableEq, Repr

/-- The host matrices `A`, `B`, `C` (lines 45-47), as transfer endpoints. -/
inductive HostPtr where
  | A
  | B
  | C
  deriving DecidableEq, Repr

/-- The operand of `sizeof` in a `clSetKernelArg` call. -/
inductive CType where
  | cl_mem
  | cl_int
  deriving DecidableEq, Repr

/-- The host variables whose address is passed to `clSetKernelArg`. -/
inductive HostVar where
  | width_A
  | height_A
  | width_B
  | height_B
  | buffer_A
  | buffer_B
  | buffer_C
  deriving DecidableEq, Repr

/-- The value an argument pointer points to: a buffer handle or a 32-bit integer. -/
inductive ArgValue where
  | mem (handle : Nat)
  | int (value : Int)
  deriving DecidableEq, Repr

/-- Calls of the OpenCL API, with the arguments `main` chooses.  `clEnqueueReadBuffer` is the
device-to-host transfer of the API; `clEnqueueWriteBuffer` is the host-to-device transfer. -/
inductive Call where
  | clGetPlatformIDs (num_entries : Nat)
  | clGetDeviceIDs (platform : Nat) (device_type : DeviceType) (num_entries : Nat)
  | clCreateContext (platform : Nat) (num_devices : Nat) (device : Nat)
  | clCreateCommandQueue (context device : Nat) (properties : Nat)
  | clCreateBuffer (context : Nat) (flags : MemFlags) (size : Nat)
  | clEnqueueWriteBuffer (command_queue buffer : Nat) (blocking_write : Bool)
      (offset size : Nat) (ptr : HostPtr)
  | clEnqueueReadBuffer (command_queue buffer : Nat) (blocking_read : Bool)
      (offset size : Nat) (ptr : HostPtr)
  | clCreateProgramWithSource (context : Nat) (count : Nat)
  | clBuildProgram (program : Nat) (num_devices : Nat)
  | clGetProgramBuildInfo (program device : Nat) (param_value_size : Nat)
  | clCreateKernel (program : Nat) (kernel_name : String)
  | clSetKernelArg (kernel : Nat) (arg_index : Nat) (arg_size : CType) (arg : HostVar)
      (arg_value : ArgValue)
  | clEnqueueNDRangeKernel (command_queue kernel : Nat) (work_dim : Nat)
      (global_work_size local_work_size : List Nat)
  | clReleaseKernel (kernel : Nat)
  | clReleaseProgram (program : Nat)
  | clReleaseCommandQueue (command_queue : Nat)
  | clReleaseMemObject (memobj : Nat)
  | clReleaseContext (context : Nat)
  deriving DecidableEq, Repr

/-- Answer of the runtime to a call that hands back an object: the handle and the status. -/
structure Created where
  handle : Nat
  errcode_ret : Int
  deriving DecidableEq, Repr

/-- The answers of the OpenCL runtime, one per call site of `main` whose result is used.  Every
call site is executed at most once, so a run of `main` is determined by these answers. -/
structure Runtime where
  clGetPlatformIDs : Created
  clGetDeviceIDs : Created
  clCreateContext : Created
  clCreateCommandQueue : Created
  clCreateBuffer_A : Created
  clCreateBuffer_B : Created
  clCreateBuffer_C : Created
  clEnqueueWriteBuffer_A : Int
  clEnqueueWriteBuffer_B : Int
  clCreateProgramWithSource : Created
  clBuildProgram : Int
  build_log : String
  clCreateKernel : Created
  clSetKernelArg : Nat → Int
  clEnqueueNDRangeKernel : Int
  clEnqueueWriteBuffer_C : Int

/-- The local variables of `main` (lines 23-32), the runtime calls issued so far and the lines
printed so far. -/
structure State where
  err : Int
  platform : Nat
  device : Nat
  context : Nat
  cmd_queue : Nat
  program : Nat
  kernel : Nat
  buffer_A : Nat
  buffer_B : Nat
  buffer_C : Nat
  calls : List Call
  stdout : List String
  deriving DecidableEq, Repr

/-- Record a runtime call. -/
def State.call (s : State) (c : Call) : State := { s with calls := s.calls ++ [c] }

/-- Record a printed line. -/
def State.printf (s : State) (line : String) : State := { s with stdout := s.stdout ++ [line] }

/-- Line 34. -/
def width_A : Int := 1024

/-- Line 35. -/
def height_A : Int := 1024

/-- Line 36. -/
def width_B : Int := 1024

/-- Line 37. -/
def height_B : Int := width_A

/-- Line 38. -/
def width_C : Int := width_B

/-- Line 39. -/
def height_C : Int := height_A

/-- Value of `sizeof (float)`. -/
def sizeof_float : Nat := 4

/-- Line 41. -/
def size_A : Nat := (width_A * height_A).toNat * sizeof_float

/-- Line 42. -/
def size_B : Nat := (width_B * height_B).toNat * sizeof_float

/-- Line 43. -/
def size_C : Nat := (width_C * height_C).toNat * sizeof_float

/-- Line 126. -/
def local_work_size : List Nat := [16, 16]

/-- Line 127. -/
def global_work_size : List Nat := [width_C.toNat, height_C.toNat]

/-- The value of a host variable passed by address to `clSetKernelArg`. -/
def State.valueOf (s : State) : HostVar → ArgValue
  | .width_A => .int width_A
  | .height_A => .int height_A
  | .width_B => .int width_B
  | .height_B => .int height_B
  | .buffer_A => .mem s.buffer_A
  | .buffer_B => .mem s.buffer_B
  | .buffer_C => .mem s.buffer_C

/-- Lines 23-32: every handle starts as `NULL`; `err` is not read before line 56 assigns it. -/
def init : State :=
  { err := 0, platform := NULL, device := NULL, context := NULL, cmd_queue := NULL,
    program := NULL, kernel := NULL, buffer_A := NULL, buffer_B := NULL, buffer_C := NULL,
    calls := [], stdout := [] }

/-- Line 56: `err = clGetPlatformIDs (1, &platform, NULL);` -/
def getPlatform (rt : Runtime) (s : State) : State :=
  let s : State := s.call (.clGetPlatformIDs 1)
  { s with err := rt.clGetPlatformIDs.errcode_ret, platform := rt.clGetPlatformIDs.handle }

/-- Line 62: `err = clGetDeviceIDs (platform, CL_DEVICE_TYPE_GPU, 1, &device, NULL);` -/
def getDevice (rt : Runtime) (s : State) : State :=
  let s : State := s.call (.clGetDeviceIDs s.platform .CL_DEVICE_TYPE_GPU 1)
  { s with err := rt.clGetDeviceIDs.errcode_ret, device := rt.clGetDeviceIDs.handle }

/-- Line 70: `context = clCreateContext (cps, 1, &device, NULL, NULL, &err);` where `cps` names
`platform`. -/
def createContext (rt : Runtime) (s : State) : State :=
  let s : State := s.call (.clCreateContext s.platform 1 s.device)
  { s with context := rt.clCreateContext.handle, err := rt.clCreateContext.errcode_ret }

/-- Line 76: `cmd_queue = clCreateCommandQueue (context, device, 0, &err);` -/
def createCommandQueue (rt : Runtime) (s : State) : State :=
  let s : State := s.call (.clCreateCommandQueue s.context s.device 0)
  { s with cmd_queue := rt.clCreateCommandQueue.handle,
           err := rt.clCreateCommandQueue.errcode_ret }

/-- Lines 82-84: the three `clCreateBuffer` calls; each stores its status in `err`, and no test
of `err` follows them. -/
def createBuffers (rt : Runtime) (s : State) : State :=
  let s : State := s.call (.clCreateBuffer s.context .CL_MEM_READ_ONLY size_A)
  let s : State := { s with buffer_A := rt.clCreateBuffer_A.handle,
                            err := rt.clCreateBuffer_A.errcode_ret }
  let s : State := s.call (.clCreateBuffer s.context .CL_MEM_READ_ONLY size_B)
  let s : State := { s with buffer_B := rt.clCreateBuffer_B.handle,
                            err := rt.clCreateBuffer_B.errcode_ret }
  let s : State := s.call (.clCreateBuffer s.context .CL_MEM_WRITE_ONLY size_C)
  { s with buffer_C := rt.clCreateBuffer_C.handle, err := rt.clCreateBuffer_C.errcode_ret }

/-- Lines 86-87: `err = clEnqueueWriteBuffer (cmd_queue, buffer_A, CL_TRUE, 0, size_A, A, ..);`
then `err |= clEnqueueWriteBuffer (cmd_queue, buffer_B, CL_TRUE, 0, size_B, B, ..);` -/
def writeBuffers (rt : Runtime) (s : State) : State :=
  let s : State := s.call (.clEnqueueWriteBuffer s.cmd_queue s.buffer_A CL_TRUE 0 size_A .A)
  let s : State := { s with err := rt.clEnqueueWriteBuffer_A }
  let s : State := s.call (.clEnqueueWriteBuffer s.cmd_queue s.buffer_B CL_TRUE 0 size_B .B)
  { s with err := Int.lor s.err rt.clEnqueueWriteBuffer_B }

/-- Line 93: `program = clCreateProgramWithSource (context, 1, &program_source, NULL, &err);` -/
def createProgram (rt : Runtime) (s : State) : State :=
  let s : State := s.call (.clCreateProgramWithSource s.context 1)
  { s with program := rt.clCreateProgramWithSource.handle,
           err := rt.clCreateProgramWithSource.errcode_ret }

/-- Line 99: `err = clBuildProgram (program, 0, NULL, NULL, NULL, NULL);` -/
def buildProgram (rt : Runtime) (s : State) : State :=
  let s : State := s.call (.clBuildProgram s.program 0)
  { s with err := rt.clBuildProgram }

/-- Lines 101-104: the build-failure branch up to its `goto error`. -/
def reportBuildFailure (rt : Runtime) (s : State) : State :=
  let s : State := s.printf "Failed to build program.\n"
  let s : State := s.call (.clGetProgramBuildInfo s.program s.device 16384)
  s.printf ("Error in kernel: " ++ rt.build_log ++ "\n")

/-- Line 108: `kernel = clCreateKernel (program, "matrix_multiply", &err);` -/
def createKernel (rt : Runtime) (s : State) : State :=
  let s : State := s.call (.clCreateKernel s.program "matrix_multiply")
  { s with kernel := rt.clCreateKernel.handle, err := rt.clCreateKernel.errcode_ret }

/-- Lines 114-120: `err = clSetKernelArg (kernel, 0, sizeof (cl_mem), &buffer_C);` followed by
six `err |= clSetKernelArg (kernel, n, ..);` -/
def setKernelArgs (rt : Runtime) (s : State) : State :=
  let s : State := s.call (.clSetKernelArg s.kernel 0 .cl_mem .buffer_C (s.valueOf .buffer_C))
  let s : State := { s with err := rt.clSetKernelArg 0 }
  let s : State := s.call (.clSetKernelArg s.kernel 1 .cl_int .width_A (s.valueOf .width_A))
  let s : State := { s with err := Int.lor s.err (rt.clSetKernelArg 1) }
  let s : State := s.call (.clSetKernelArg s.kernel 2 .cl_int .height_A (s.valueOf .height_A))
  let s : State := { s with err := Int.lor s.err (rt.clSetKernelArg 2) }
  let s : State := s.call (.clSetKernelArg s.kernel 3 .cl_int .width_B (s.valueOf .width_B))
  let s : State := { s with err := Int.lor s.err (rt.clSetKernelArg 3) }
  let s : State := s.call (.clSetKernelArg s.kernel 4 .cl_int .height_B (s.valueOf .height_B))
  let s : State := { s with err := Int.lor s.err (rt.clSetKernelArg 4) }
  let s : State := s.call (.clSetKernelArg s.kernel 5 .cl_mem .buffer_A (s.valueOf .buffer_A))
  let s : State := { s with err := Int.lor s.err (rt.clSetKernelArg 5) }
  let s : State := s.call (.clSetKernelArg s.kernel 6 .cl_mem .buffer_B (s.valueOf .buffer_B))
  { s with err := Int.lor s.err (rt.clSetKernelArg 6) }

/-- Line 129: `err = clEnqueueNDRangeKernel (cmd_queue, kernel, 2, NULL, global_work_size,
local_work_size, 0, NULL, NULL);` -/
def enqueueKernel (rt : Runtime) (s : State) : State :=
  let s : State :=
    s.call (.clEnqueueNDRangeKernel s.cmd_queue s.kernel 2 global_work_size local_work_size)
  { s with err := rt.clEnqueueNDRangeKernel }

/-- Line 135: `err = clEnqueueWriteBuffer (cmd_queue, buffer_C, CL_TRUE, 0, size_C, C, ..);` -/
def transferC (rt : Runtime) (s : State) : State :=
  let s : State := s.call (.clEnqueueWriteBuffer s.cmd_queue s.buffer_C CL_TRUE 0 size_C .C)
  { s with err := rt.clEnqueueWriteBuffer_C }

/-- Lines 56-139 of `main`: the state in which control reaches the label `error:`, by a
`goto error` or by falling through after line 139. -/
def main_body (rt : Runtime) : State :=
  let s := getPlatform rt init
  if s.err ≠ CL_SUCCESS then s.printf "Failed to get platform ID.\n" else
  let s := getDevice rt s
  if s.err ≠ CL_SUCCESS then s.printf "Failed to get device ID.\n" else
  let s := createContext rt s
  if s.err ≠ CL_SUCCESS then s.printf "Failed to create OpenCL context.\n" else
  let s := createCommandQueue rt s
  if s.err ≠ CL_SUCCESS then s.printf "Failed to create command queue for device.\n" else
  let s := createBuffers rt s
  let s := writeBuffers rt s
  if s.err ≠ CL_SUCCESS then s.printf "Failed to copy data from host to device.\n" else
  let s := createProgram rt s
  if s.err ≠ CL_SUCCESS then s.printf "Failed to create OpenCL program from source.\n" else
  let s := buildProgram rt s
  if s.err ≠ CL_SUCCESS then reportBuildFailure rt s else
  let s := createKernel rt s
  if s.err ≠ CL_SUCCESS then s.printf "Failed to create kernel.\n" else
  let s := setKernelArgs rt s
  if s.err ≠ CL_SUCCESS then s.printf "Failed to set kernel arguments.\n" else
  let s := enqueueKernel rt s
  if s.err ≠ CL_SUCCESS then s.printf "Failed to queue kernel for execution.\n" else
  let s := transferC rt s
  if s.err ≠ CL_SUCCESS then s.printf "Failed to copy data from device to host.\n" else
  s

/-- Lines 143-149: the release calls after the label `error:`. -/
def cleanup (s : State) : State :=
  let s : State := s.call (.clReleaseKernel s.kernel)
  let s : State := s.call (.clReleaseProgram s.program)
  let s : State := s.call (.clReleaseCommandQueue s.cmd_queue)
  let s : State := s.call (.clReleaseMemObject s.buffer_A)
  let s : State := s.call (.clReleaseMemObject s.buffer_B)
  let s : State := s.call (.clReleaseMemObject s.buffer_C)
  s.call (.clReleaseContext s.context)

/-- What a run of `main` shows: the runtime calls in order, the printed lines, the returned
value. -/
structure Outcome where
  calls : List Call
  stdout : List String
  ret : Int
  deriving DecidableEq, Repr

/-- The function `main` (lines 21-156): the pipeline, then the code after `error:`, then
`return err`. -/
def main (rt : Runtime) : Outcome :=
  let s := cleanup (main_body rt)
  { calls := s.calls, stdout := s.stdout, ret := s.err }

/-! ## Vocabulary of the statements -/

/-- Accumulated value of `err` at each of the eleven tests `if (err != CL_SUCCESS)`, in program
order (lines 57, 63, 71, 77, 88, 94, 100, 109, 121, 130, 136): the status of the call before a
test, or the bitwise or of the statuses of the calls accumulated with `|=`. -/
def stageCodes (rt : Runtime) : List Int :=
  [rt.clGetPlatformIDs.errcode_ret,
   rt.clGetDeviceIDs.errcode_ret,
   rt.clCreateContext.errcode_ret,
   rt.clCreateCommandQueue.errcode_ret,
   Int.lor rt.clEnqueueWriteBuffer_A rt.clEnqueueWriteBuffer_B,
   rt.clCreateProgramWithSource.errcode_ret,
   rt.clBuildProgram,
   rt.clCreateKernel.errcode_ret,
   Int.lor (Int.lor (Int.lor (Int.lor (Int.lor (Int.lor (rt.clSetKernelArg 0)
     (rt.clSetKernelArg 1)) (rt.clSetKernelArg 2)) (rt.clSetKernelArg 3)) (rt.clSetKernelArg 4))
     (rt.clSetKernelArg 5)) (rt.clSetKernelArg 6),
   rt.clEnqueueNDRangeKernel,
   rt.clEnqueueWriteBuffer_C]

/-- The first status of a list that is not `CL_SUCCESS`; `CL_SUCCESS` when there is none. -/
def firstFailure : List Int → Int
  | [] => CL_SUCCESS
  | e :: rest => if e ≠ CL_SUCCESS then e else firstFailure rest

/-- State after line 56. -/
def afterPlatform (rt : Runtime) : State := getPlatform rt init

/-- State after line 62. -/
def afterDevice (rt : Runtime) : State := getDevice rt (afterPlatform rt)

/-- State after line 70. -/
def afterContext (rt : Runtime) : State := createContext rt (afterDevice rt)

/-- State after line 76. -/
def afterQueue (rt : Runtime) : State := createCommandQueue rt (afterContext rt)

/-- State after line 87. -/
def afterWrites (rt : Runtime) : State := writeBuffers rt (createBuffers rt (afterQueue rt))

/-- State after line 93. -/
def afterProgram (rt : Runtime) : State := createProgram rt (afterWrites rt)

/-- State after line 99. -/
def afterBuild (rt : Runtime) : State := buildProgram rt (afterProgram rt)

/-- State after line 108. -/
def afterKernel (rt : Runtime) : State := createKernel rt (afterBuild rt)

/-- State after line 120. -/
def afterArgs (rt : Runtime) : State := setKernelArgs rt (afterKernel rt)

/-- State after line 129. -/
def afterDispatch (rt : Runtime) : State := enqueueKernel rt (afterArgs rt)

/-- State after line 135. -/
def afterTransfer (rt : Runtime) : State := transferC rt (afterDispatch rt)

/-- The release calls of lines 143-149 on the handles of a state. -/
def releases (s : State) : List Call :=
  [Call.clReleaseKernel s.kernel, Call.clReleaseProgram s.program,
   Call.clReleaseCommandQueue s.cmd_queue, Call.clReleaseMemObject s.buffer_A,
   Call.clReleaseMemObject s.buffer_B, Call.clReleaseMemObject s.buffer_C,
   Call.clReleaseContext s.context]

/-- Release calls. -/
def Call.isRelease : Call → Bool
  | .clReleaseKernel _ => true
  | .clReleaseProgram _ => true
  | .clReleaseCommandQueue _ => true
  | .clReleaseMemObject _ => true
  | .clReleaseContext _ => true
  | _ => false

/-- The build-log query of line 103. -/
def Call.isBuildLogQuery : Call → Bool
  | .clGetProgramBuildInfo _ _ _ => true
  | _ => false

/-- The kernel dispatch. -/
def Call.isDispatch : Call → Bool
  | .clEnqueueNDRangeKernel _ _ _ _ _ => true
  | _ => false

/-- The device-to-host transfer of the API. -/
def Call.isReadBuffer : Call → Bool
  | .clEnqueueReadBuffer _ _ _ _ _ _ => true
  | _ => false

/-- The global work size a dispatch is given. -/
def Call.globalWorkSize : Call → Option (List Nat)
  | .clEnqueueNDRangeKernel _ _ _ g _ => some g
  | _ => none

/-- The kinds of device resource `main` acquires and releases. -/
inductive ResourceKind where
  | context
  | cmd_queue
  | buffer
  | program
  | kernel
  deriving DecidableEq, Repr

/-- The kind of resource a call acquires, for the creation calls. -/
def Call.creates : Call → Option ResourceKind
  | .clCreateContext _ _ _ => some .context
  | .clCreateCommandQueue _ _ _ => some .cmd_queue
  | .clCreateBuffer _ _ _ => some .buffer
  | .clCreateProgramWithSource _ _ => some .program
  | .clCreateKernel _ _ => some .kernel
  | _ => none

/-- Whether a creation call for a kind of resource is among the calls. -/
def issued (calls : List Call) (k : ResourceKind) : Bool :=
  calls.any (fun c => c.creates = some k)

/-- The handle a resource slot holds at the label `error:` according to the claim: the handle
the runtime returned when the creation call was issued and succeeded, `NULL` otherwise. -/
def held (wasIssued : Bool) (r : Created) : Nat :=
  if wasIssued = true ∧ r.errcode_ret = CL_SUCCESS then r.handle else NULL

/-- The contract of the OpenCL creation calls: a call that fails returns a `NULL` handle. -/
def Created.NullOnFailure (r : Created) : Prop :=
  r.errcode_ret ≠ CL_SUCCESS → r.handle = NULL

/-- The runtime honours `Created.NullOnFailure` at the seven creation calls of objects that
`main` releases. -/
def Runtime.NullOnFailure (rt : Runtime) : Prop :=
  rt.clCreateContext.NullOnFailure ∧ rt.clCreateCommandQueue.NullOnFailure ∧
  rt.clCreateBuffer_A.NullOnFailure ∧ rt.clCreateBuffer_B.NullOnFailure ∧
  rt.clCreateBuffer_C.NullOnFailure ∧ rt.clCreateProgramWithSource.NullOnFailure ∧
  rt.clCreateKernel.NullOnFailure

/-- The status-checked stage a pipeline call belongs to, numbered as in `stageCodes`: 0 platform
query, 1 device query, 2 context, 3 command queue, 4 device memory (lines 82-87: the three
allocations and the two host-to-device writes, tested at line 88), 5 program creation, 6 build,
7 kernel creation, 8 argument binding, 9 dispatch, 10 transfer of `C`.  The build-log query and
the release calls belong to no stage. -/
def Call.stage : Call → Option Nat
  | .clGetPlatformIDs _ => some 0
  | .clGetDeviceIDs _ _ _ => some 1
  | .clCreateContext _ _ _ => some 2
  | .clCreateCommandQueue _ _ _ => some 3
  | .clCreateBuffer _ _ _ => some 4
  | .clEnqueueWriteBuffer _ _ _ _ _ .C => some 10
  | .clEnqueueWriteBuffer _ _ _ _ _ _ => some 4
  | .clEnqueueReadBuffer _ _ _ _ _ _ => some 10
  | .clCreateProgramWithSource _ _ => some 5
  | .clBuildProgram _ _ => some 6
  | .clCreateKernel _ _ => some 7
  | .clSetKernelArg _ _ _ _ _ => some 8
  | .clEnqueueNDRangeKernel _ _ _ _ _ => some 9
  | .clGetProgramBuildInfo _ _ _ => none
  | .clReleaseKernel _ => none
  | .clReleaseProgram _ => none
  | .clReleaseCommandQueue _ => none
  | .clReleaseMemObject _ => none
  | .clReleaseContext _ => none

/-- One binding of a kernel argument: the kernel object, the slot, the size passed, the host
variable passed by address, and the value of that variable. -/
structure BoundArg where
  kernel : Nat
  arg_index : Nat
  arg_size : CType
  arg : HostVar
  arg_value : ArgValue
  deriving DecidableEq, Repr

/-- The binding a `clSetKernelArg` call makes. -/
def Call.boundArg : Call → Option BoundArg
  | .clSetKernelArg k i sz v val => some ⟨k, i, sz, v, val⟩
  | _ => none

/-- The entry-point name a `clCreateKernel` call asks for. -/
def Call.kernelName : Call → Option String
  | .clCreateKernel _ name => some name
  | _ => none

/-- The bindings made by a sequence of calls, in order. -/
def boundArgs (calls : List Call) : List BoundArg := calls.filterMap Call.boundArg

/-- The kernel parameter a host variable stands for: `buffer_C` is the output matrix, `buffer_A`
and `buffer_B` the inputs, each dimension the parameter of its name. -/
def HostVar.param : HostVar → KernelParam
  | .buffer_C => .output_C
  | .width_A => .width_A
  | .height_A => .height_A
  | .width_B => .width_B
  | .height_B => .height_B
  | .buffer_A => .input_A
  | .buffer_B => .input_B

/-- The host type bound to a kernel parameter type: a buffer object for `__global float *`, a
32-bit integer for `int`. -/
def ParamType.ctype : ParamType → CType
  | .global_float_ptr => .cl_mem
  | .int => .cl_int

/-- The host type of an argument value. -/
def ArgValue.ctype : ArgValue → CType
  | .mem _ => .cl_mem
  | .int _ => .cl_int

/-- A binding agrees with a kernel parameter in meaning and in type. -/
def BoundArg.agrees (b : BoundArg) (p : KernelParam × ParamType) : Prop :=
  b.arg.param = p.1 ∧ b.arg_size = p.2.ctype ∧ b.arg_value.ctype = p.2.ctype

/-- A run in which every call succeeds; the handles are 1 to 9 in order of acquisition. -/
def okRuntime : Runtime :=
  { clGetPlatformIDs := ⟨1, 0⟩
    clGetDeviceIDs := ⟨2, 0⟩
    clCreateContext := ⟨3, 0⟩
    clCreateCommandQueue := ⟨4, 0⟩
    clCreateBuffer_A := ⟨5, 0⟩
    clCreateBuffer_B := ⟨6, 0⟩
    clCreateBuffer_C := ⟨7, 0⟩
    clEnqueueWriteBuffer_A := 0
    clEnqueueWriteBuffer_B := 0
    clCreateProgramWithSource := ⟨8, 0⟩
    clBuildProgram := 0
    build_log := ""
    clCreateKernel := ⟨9, 0⟩
    clSetKernelArg := fun _ => 0
    clEnqueueNDRangeKernel := 0
    clEnqueueWriteBuffer_C := 0 }

/-- Runs in which one `clCreateBuffer` call fails with `CL_MEM_OBJECT_ALLOCATION_FAILURE` (-4)
and returns `NULL`, and every other call succeeds. -/
def allocFails : HostPtr → Runtime
  | .A => { okRuntime with clCreateBuffer_A := ⟨NULL, -4⟩ }
  | .B => { okRuntime with clCreateBuffer_B := ⟨NULL, -4⟩ }
  | .C => { okRuntime with clCreateBuffer_C := ⟨NULL, -4⟩ }

/-- A run in which the write of buffer A fails with `CL_OUT_OF_RESOURCES` (-5). -/
def writeAFails : Runtime := { okRuntime with clEnqueueWriteBuffer_A := -5 }

/-- A run in which binding argument 0 fails with `CL_INVALID_ARG_VALUE` (-50). -/
def firstArgFails : Runtime :=
  { okRuntime with clSetKernelArg := fun arg_index => if arg_index = 0 then -50 else 0 }

/-- A run in which `clCreateKernel` fails with `CL_INVALID_KERNEL_NAME` (-46) and returns
`NULL`. -/
def kernelFails : Runtime := { okRuntime with clCreateKernel := ⟨NULL, -46⟩ }

/-! ## Lemmas on the kernel -/

/-- A value inside the 32-bit range is held unchanged. -/
theorem wrap32_eq {x : Int} (h0 : -2147483648 ≤ x) (h1 : x < 2147483648) : wrap32 x = x := by
  unfold wrap32; omega

/-- A 32-bit value is inside the 32-bit range. -/
theorem wrap32_range (x : Int) : -2147483648 ≤ wrap32 x ∧ wrap32 x < 2147483648 := by
  unfold wrap32; omega

/-- A natural number below `2^31` converts to `int` unchanged. -/
theorem wrap32_natCast {n : Nat} (h : n < 2147483648) : wrap32 (n : Int) = (n : Int) :=
  wrap32_eq (by omega) (by omega)

/-- A row-major index below `2^31` is computed without overflow. -/
theorem wrap32_index {r w i : Nat} (h : r * w + i < 2147483648) :
    wrap32 (wrap32 ((r : Int) * (w : Int)) + (i : Int)) = ((r * w + i : Nat) : Int) := by
  have h1 : ((r * w + i : Nat) : Int) < 2147483648 := by exact_mod_cast h
  push_cast at h1 ⊢
  have h2 : (0 : Int) ≤ (r : Int) * (w : Int) := by positivity
  have h3 : (0 : Int) ≤ (i : Int) := by positivity
  rw [wrap32_eq (x := (r : Int) * (w : Int)) (by omega) (by omega)]
  exact wrap32_eq (by omega) (by omega)

/-- A load at an index inside the buffer returns the element there. -/
theorem load_of_lt {α : Type} [Zero α] (buf : List α) (idx : Int) (j : Nat)
    (hj : idx = (j : Int)) (hlt : j < buf.length) : load buf idx = some (buf.getD j 0) := by
  subst hj
  simp [load, List.getD_eq_getElem?_getD, List.getElem?_eq_getElem hlt]

/-- A row-major index is below the element count. -/
theorem index_lt_of_lt {r h i w : Nat} (hr : r < h) (hi : i < w) : r * w + i < h * w := by
  calc r * w + i < r * w + w := by omega
    _ = (r + 1) * w := by ring
    _ ≤ h * w := Nat.mul_le_mul_right w hr

/-- Loop invariant of lines 14-16: entered at `i = k` with `d` iterations left and enough
fuel, the loop returns the running sum folded over `i = k .. k + d - 1`, when the element
counts of both inputs are below `2^31`. -/
theorem loop_from {α : Type} [Zero α] [Add α] [Mul α] (wA wB hA : Nat) (row col : Nat)
    (A B : List α) (hrow : row < hA) (hcol : col < wB)
    (hA_len : A.length = hA * wA) (hB_len : B.length = wA * wB)
    (hA_fit : hA * wA < 2147483648) (hB_fit : wA * wB < 2147483648) :
    ∀ (d k fuel : Nat) (sum : α), k + d = wA → d < fuel →
      matrix_multiply_loop (wA : Int) (wB : Int) (row : Int) (col : Int) A B fuel (k : Int) sum
        = some ((List.range' k d).foldl
            (fun sum i => sum + A.getD (row * wA + i) 0 * B.getD (i * wB + col) 0) sum) := by
  intro d
  induction d with
  | zero =>
    intro k fuel sum hk hf
    obtain ⟨f, rfl⟩ : ∃ f, fuel = f + 1 := ⟨fuel - 1, by omega⟩
    have : ¬ ((k : Int) < (wA : Int)) := by omega
    rw [matrix_multiply_loop, if_neg this]
    rfl
  | succ d ih =>
    intro k fuel sum hk hf
    obtain ⟨f, rfl⟩ : ∃ f, fuel = f + 1 := ⟨fuel - 1, by omega⟩
    have hlt : (k : Int) < (wA : Int) := by omega
    have hkw : k < wA := by omega
    have hiA : row * wA + k < hA * wA := index_lt_of_lt hrow hkw
    have hiB : k * wB + col < wA * wB := index_lt_of_lt hkw hcol
    have hwA : wA ≤ hA * wA := Nat.le_mul_of_pos_left wA (by omega)
    have hk1 : (-2147483648 : Int) ≤ (k : Int) + 1 := by omega
    have hk2 : (k : Int) + 1 < 2147483648 := by omega
    have hfA : row * wA + k < 2147483648 := by omega
    have hfB : k * wB + col < 2147483648 := by omega
    have step := ih (k + 1) f (sum + A.getD (row * wA + k) 0 * B.getD (k * wB + col) 0)
      (by omega) (by omega)
    have ha : load A (index_A row wA k) = some (A.getD (row * wA + k) 0) :=
      load_of_lt A _ _ (by rw [index_A, wrap32_index hfA]) (by rw [hA_len]; exact hiA)
    have hb : load B (index_B k wB col) = some (B.getD (k * wB + col) 0) :=
      load_of_lt B _ _ (by rw [index_B, wrap32_index hfB]) (by rw [hB_len]; exact hiB)
    have hinc : wrap32 ((k : Int) + 1) = ((k + 1 : Nat) : Int) := by
      rw [wrap32_eq hk1 hk2, Nat.cast_add, Nat.cast_one]
    rw [matrix_multiply_loop, if_pos hlt, ha, hb]
    show matrix_multiply_loop (wA : Int) (wB : Int) (row : Int) (col : Int) A B f
      (wrap32 ((k : Int) + 1)) (sum + A.getD (row * wA + k) 0 * B.getD (k * wB + col) 0) = _
    rw [hinc, List.range'_succ, List.foldl_cons]
    exact step

/-- The loop of lines 14-16, entered at `i = 0` with `sum = 0`, returns the reference dot
product when the element counts of both inputs are below `2^31`. -/
theorem loop_result {α : Type} [Zero α] [Add α] [Mul α] (width_A width_B height_A : Int)
    (row col : Nat) (A B : List α) (hrow : (row : Int) < height_A) (hcol : (col : Int) < width_B)
    (hA_len : A.length = (height_A * width_A).toNat)
    (hB_len : B.length = (width_A * width_B).toNat)
    (hA_fit : height_A * width_A < 2147483648) (hB_fit : width_A * width_B < 2147483648) :
    matrix_multiply_loop width_A width_B (row : Int) (col : Int) A B (width_A.toNat + 1) 0 0
      = some (dotProductRef A B width_A.toNat width_B.toNat row col) := by
  rcases le_or_lt 0 width_A with hw | hw
  · obtain ⟨wA, rfl⟩ := Int.eq_ofNat_of_zero_le hw
    obtain ⟨wB, rfl⟩ := Int.eq_ofNat_of_zero_le (show 0 ≤ width_B by omega)
    obtain ⟨hA, rfl⟩ := Int.eq_ofNat_of_zero_le (show 0 ≤ height_A by omega)
    have e1 : ((hA : Int) * (wA : Int)).toNat = hA * wA := by
      rw [← Nat.cast_mul, Int.toNat_ofNat]
    have e2 : ((wA : Int) * (wB : Int)).toNat = wA * wB := by
      rw [← Nat.cast_mul, Int.toNat_ofNat]
    have f1 : hA * wA < 2147483648 := by
      have : ((hA * wA : Nat) : Int) < 2147483648 := by rw [Nat.cast_mul]; exact hA_fit
      omega
    have f2 : wA * wB < 2147483648 := by
      have : ((wA * wB : Nat) : Int) < 2147483648 := by rw [Nat.cast_mul]; exact hB_fit
      omega
    have h := loop_from wA wB hA row col A B (by omega) (by omega)
      (by rw [hA_len, e1]) (by rw [hB_len, e2]) f1 f2 wA 0 (wA + 1) 0 (by omega) (by omega)
    rw [Int.toNat_ofNat, Int.toNat_ofNat]
    rw [dotProductRef, List.range_eq_range']
    exact h
  · have h0 : width_A.toNat = 0 := by omega
    have : ¬ ((0 : Int) < width_A) := by omega
    rw [h0, matrix_multiply_loop, if_neg this]
    rfl

/-- A work-item inside the range, for matrices whose element counts are below `2^31`, returns,
stores the reference dot product at its own index of `output_C`, and changes nothing else. -/
theorem matrix_multiply_result {α : Type} [Zero α] [Add α] [Mul α] (gid : Nat → Nat)
    (output_C input_A input_B : List α) (width_A height_A width_B height_B : Int)
    (hdim : width_A = height_B)
    (hA_len : input_A.length = (height_A * width_A).toNat)
    (hB_len : input_B.length = (height_B * width_B).toNat)
    (hC_len : output_C.length = (height_A * width_B).toNat)
    (hA_fit : height_A * width_A < 2147483648) (hB_fit : height_B * width_B < 2147483648)
    (hC_fit : height_A * width_B < 2147483648)
    (hcol : (gid 0 : Int) < width_B) (hrow : (gid 1 : Int) < height_A) :
    gid 1 * width_B.toNat + gid 0 < output_C.length ∧
    index_C (wrap32 (gid 1)) width_B (wrap32 (gid 0))
      = ((gid 1 * width_B.toNat + gid 0 : Nat) : Int) ∧
    matrix_multiply gid output_C width_A height_A width_B height_B input_A input_B
      = some (output_C.set (gid 1 * width_B.toNat + gid 0)
          (dotProductRef input_A input_B width_A.toNat width_B.toNat
            (gid 1) (gid 0))) := by
  subst hdim
  have hl := loop_result width_A width_B height_A (gid 1) (gid 0)
    input_A input_B hrow hcol hA_len hB_len hA_fit hB_fit
  obtain ⟨wB, rfl⟩ := Int.eq_ofNat_of_zero_le (show 0 ≤ width_B by omega)
  obtain ⟨hA, rfl⟩ := Int.eq_ofNat_of_zero_le (show 0 ≤ height_A by omega)
  have hr : gid 1 < hA := by omega
  have hc : gid 0 < wB := by omega
  have hfit : hA * wB < 2147483648 := by
    have : ((hA * wB : Nat) : Int) < 2147483648 := by rw [Nat.cast_mul]; exact hC_fit
    omega
  have hidx_lt : gid 1 * wB + gid 0 < hA * wB := index_lt_of_lt hr hc
  have hlt : gid 1 * wB + gid 0 < output_C.length := by
    rw [hC_len, ← Nat.cast_mul, Int.toNat_ofNat]; exact hidx_lt
  have hhA : hA ≤ hA * wB := Nat.le_mul_of_pos_right hA (by omega)
  have hwB : wB ≤ hA * wB := Nat.le_mul_of_pos_left wB (by omega)
  have hg1 : gid 1 < 2147483648 := by omega
  have hg0 : gid 0 < 2147483648 := by omega
  have hfi : gid 1 * wB + gid 0 < 2147483648 := by omega
  have hrow32 : wrap32 ((gid 1 : Nat) : Int) = ((gid 1 : Nat) : Int) := wrap32_natCast hg1
  have hcol32 : wrap32 ((gid 0 : Nat) : Int) = ((gid 0 : Nat) : Int) := wrap32_natCast hg0
  have hidx : index_C (wrap32 (gid 1 : Int)) (wB : Int) (wrap32 (gid 0 : Int))
      = ((gid 1 * wB + gid 0 : Nat) : Int) := by
    rw [hrow32, hcol32, index_C, wrap32_index hfi]
  rw [Int.toNat_ofNat]
  refine ⟨hlt, hidx, ?_⟩
  have hunf : matrix_multiply gid output_C width_A (hA : Int) (wB : Int) width_A input_A input_B
      = match matrix_multiply_loop width_A (wB : Int) (wrap32 (gid 1 : Int))
          (wrap32 (gid 0 : Int)) input_A input_B (width_A.toNat + 1) 0 0 with
        | some sum => store output_C
            (index_C (wrap32 (gid 1 : Int)) (wB : Int) (wrap32 (gid 0 : Int))) sum
        | none => none := rfl
  rw [hunf, hidx, hrow32, hcol32, hl]
  show store output_C ((gid 1 * wB + gid 0 : Nat) : Int) _ = _
  rw [store, if_pos ⟨Int.ofNat_nonneg _, by rw [Int.toNat_ofNat]; exact hlt⟩, Int.toNat_ofNat]
  rw [Int.toNat_ofNat]

/-- A work-item whose 32-bit store index is negative fails. -/
theorem matrix_multiply_none_of_neg {α : Type} [Zero α] [Add α] [Mul α] (gid : Nat → Nat)
    (output_C input_A input_B : List α) (width_A height_A width_B height_B : Int)
    (hneg : index_C (wrap32 (gid 1)) width_B (wrap32 (gid 0)) < 0) :
    matrix_multiply gid output_C width_A height_A width_B height_B input_A input_B = none := by
  have hnot : ¬ (0 ≤ index_C (wrap32 (gid 1)) width_B (wrap32 (gid 0))) := by omega
  simp only [matrix_multiply]
  split
  · simp [store, hnot]
  · rfl

/-- Two work-items of the same range with the same written index are the same work-item. -/
theorem index_injective {w c r c' r' : Nat} (hc : c < w) (hc' : c' < w)
    (h : r * w + c = r' * w + c') : c = c' ∧ r = r' := by
  have h1 : (r * w + c) % w = (r' * w + c') % w := by rw [h]
  have h2 : (r * w + c) / w = (r' * w + c') / w := by rw [h]
  have hw : 0 < w := by omega
  rw [Nat.mul_comm r, Nat.mul_comm r', Nat.mul_add_mod, Nat.mul_add_mod,
    Nat.mod_eq_of_lt hc, Nat.mod_eq_of_lt hc'] at h1
  rw [Nat.mul_comm r, Nat.mul_comm r', Nat.mul_add_div hw, Nat.mul_add_div hw,
    Nat.div_eq_of_lt hc, Nat.div_eq_of_lt hc'] at h2
  exact ⟨h1, by omega⟩

/-- Running the work-items of a schedule inside the range, for matrices whose element counts
are below `2^31`: every element whose work-item is in the schedule holds its dot product, every
other element is unchanged. -/
theorem runWorkItems_result {α : Type} [Zero α] [Add α] [Mul α] (n k m : Nat) (A B : List α)
    (hA_len : A.length = n * k) (hB_len : B.length = k * m)
    (hA_fit : n * k < 2147483648) (hB_fit : k * m < 2147483648)
    (hC_fit : n * m < 2147483648) :
    ∀ (sched : List (Nat × Nat)) (C : List α), C.length = n * m →
      (∀ p ∈ sched, p.1 < m ∧ p.2 < n) →
      ∃ C', runWorkItems (fun g out => matrix_multiply g out k n m k A B) sched C = some C' ∧
        C'.length = n * m ∧
        ∀ c r, c < m → r < n → C'[r * m + c]? =
          if (c, r) ∈ sched then some (dotProductRef A B k m r c) else C[r * m + c]? := by
  intro sched
  induction sched with
  | nil => intro C hC _; exact ⟨C, rfl, hC, by simp⟩
  | cons p rest ih =>
    intro C hC hin
    obtain ⟨hp1, hp2⟩ := hin p (List.mem_cons_self _ _)
    have hk := matrix_multiply_result (get_global_id p) C A B (k : Int) n m k rfl
      (by rw [hA_len]; norm_cast) (by rw [hB_len]; norm_cast) (by rw [hC]; norm_cast)
      (by exact_mod_cast hA_fit) (by exact_mod_cast hB_fit) (by exact_mod_cast hC_fit)
      (by simpa [get_global_id] using hp1) (by simpa [get_global_id] using hp2)
    have hg0 : get_global_id p 0 = p.1 := by simp [get_global_id]
    have hg1 : get_global_id p 1 = p.2 := by simp [get_global_id]
    simp only [hg0, hg1, Int.toNat_ofNat] at hk
    obtain ⟨hlt, -, hk⟩ := hk
    obtain ⟨C', hrun, hlen, hval⟩ := ih (C.set (p.2 * m + p.1) (dotProductRef A B k m p.2 p.1))
      (by simpa using hC) (fun q hq => hin q (List.mem_cons_of_mem _ hq))
    refine ⟨C', by simp only [runWorkItems, hk, hrun], hlen, ?_⟩
    intro c r hc hr
    rw [hval c r hc hr]
    by_cases hmem : (c, r) ∈ rest
    · simp [hmem]
    · by_cases hpe : (c, r) = p
      · subst hpe
        simp [hmem, List.getElem?_set, hlt]
      · have hne : ¬ (p.2 * m + p.1 = r * m + c) := by
          intro h
          obtain ⟨h1, h2⟩ := index_injective hp1 hc h
          exact hpe (by ext <;> simp [h1, h2])
        have hpe' : ¬ ((c, r) = p) := hpe
        simp [hmem, List.getElem?_set, hne, hpe']

/-- A schedule holding a work-item that fails on every output buffer fails. -/
theorem runWorkItems_none_of_mem {α : Type}
    (kernel : (Nat → Nat) → List α → Option (List α)) (p : Nat × Nat)
    (hp : ∀ out, kernel (get_global_id p) out = none) :
    ∀ (sched : List (Nat × Nat)) (C : List α), p ∈ sched → runWorkItems kernel sched C = none := by
  intro sched
  induction sched with
  | nil => intro C h; simp at h
  | cons q rest ih =>
    intro C h
    rcases List.mem_cons.1 h with rfl | hmem
    · simp [runWorkItems, hp]
    · simp only [runWorkItems]
      split
      · exact ih _ hmem
      · rfl

/-- Entry `(r, i)` of the identity matrix. -/
theorem identityMatrix_getD {α : Type} [Semiring α] (n r i : Nat) (hr : r < n) (hi : i < n) :
    (identityMatrix n : List α).getD (r * n + i) 0 = if r = i then 1 else 0 := by
  have hlt : r * n + i < n * n := index_lt_of_lt hr hi
  have hn : 0 < n := by omega
  have hd : (r * n + i) / n = r := by
    rw [Nat.mul_comm, Nat.mul_add_div hn, Nat.div_eq_of_lt hi]; rfl
  have hm : (r * n + i) % n = i := by
    rw [Nat.mul_comm, Nat.mul_add_mod, Nat.mod_eq_of_lt hi]
  simp [identityMatrix, List.getD_eq_getElem?_getD, List.getElem?_map, List.getElem?_range hlt,
    hd, hm]

/-- Row `r` of the identity times column `c` of `M` is `M[r, c]`. -/
theorem dotProductRef_identity {α : Type} [Semiring α] (n m r c : Nat) (M : List α)
    (hr : r < n) :
    dotProductRef (identityMatrix n) M n m r c = M.getD (r * m + c) 0 := by
  have key : ∀ j, j ≤ n →
      (List.range j).foldl (fun sum i => sum + (identityMatrix n : List α).getD (r * n + i) 0
        * M.getD (i * m + c) 0) 0 = if r < j then M.getD (r * m + c) 0 else 0 := by
    intro j
    induction j with
    | zero => intro _; simp
    | succ j ih =>
      intro hj
      rw [List.range_succ, List.foldl_append, ih (by omega)]
      simp only [List.foldl_cons, List.foldl_nil, identityMatrix_getD n r j hr (by omega)]
      by_cases h1 : r < j
      · have : r ≠ j := by omega
        simp [h1, this, Nat.lt_succ_of_lt h1]
      · by_cases h2 : r = j
        · subst h2; simp
        · have : ¬ r < j + 1 := by omega
          simp [h1, h2, this]
  simpa [dotProductRef, hr] using key n le_rfl

/-- The work-items of a range are the pairs inside it. -/
theorem mem_workItems (g0 g1 c r : Nat) : (c, r) ∈ workItems g0 g1 ↔ c < g0 ∧ r < g1 := by
  simp [workItems]

/-- A row-major index over the integers, inside a matrix whose element count is below `2^31`:
the 32-bit computation does not overflow and the index is inside the matrix. -/
theorem int_index_bounds {r h i w : Int} (hr0 : 0 ≤ r) (hr : r < h) (hi0 : 0 ≤ i) (hi : i < w)
    (hfit : w * h < 2147483648) :
    wrap32 (wrap32 (r * w) + i) = r * w + i ∧ 0 ≤ r * w + i ∧ r * w + i < w * h := by
  have hw : 0 ≤ w := by omega
  have h0 : 0 ≤ r * w := by positivity
  have h1 : (r + 1) * w ≤ h * w := mul_le_mul_of_nonneg_right (by omega) hw
  have h2 : r * w + i < w * h := by nlinarith
  refine ⟨?_, by omega, h2⟩
  rw [wrap32_eq (x := r * w) (by omega) (by omega)]
  exact wrap32_eq (by omega) (by omega)

/-- The written index is a bijection from the work-items of a `W x H` range with
`W * H < 2^31` onto the indices of a buffer of `W * H` elements. -/
theorem index_C_bijOn (W H : Nat) (hfit : W * H < 2147483648) :
    Set.BijOn (fun p : ℕ × ℕ => index_C (wrap32 (p.2 : ℤ)) (W : ℤ) (wrap32 (p.1 : ℤ)))
      {p | p.1 < W ∧ p.2 < H} {z : ℤ | 0 ≤ z ∧ z < (W : ℤ) * (H : ℤ)} := by
  have key : ∀ p : ℕ × ℕ, p.1 < W → p.2 < H →
      index_C (wrap32 (p.2 : ℤ)) (W : ℤ) (wrap32 (p.1 : ℤ)) = ((p.2 * W + p.1 : ℕ) : ℤ) := by
    intro p hc hr
    have hlt : p.2 * W + p.1 < H * W := index_lt_of_lt hr hc
    have hH : H ≤ W * H := Nat.le_mul_of_pos_left H (by omega)
    have hW : W ≤ W * H := Nat.le_mul_of_pos_right W (by omega)
    rw [wrap32_natCast (by omega), wrap32_natCast (by omega), index_C,
      wrap32_index (by rw [Nat.mul_comm H W] at hlt; omega)]
  refine ⟨?_, ?_, ?_⟩
  · rintro ⟨c, r⟩ ⟨hc, hr⟩
    have h := index_lt_of_lt hr hc
    simp only [Set.mem_setOf_eq]
    rw [key (c, r) hc hr]
    constructor
    · positivity
    · have : ((r * W + c : ℕ) : ℤ) < ((H * W : ℕ) : ℤ) := by exact_mod_cast h
      push_cast at this ⊢
      linarith
  · rintro ⟨c, r⟩ ⟨hc, hr⟩ ⟨c', r'⟩ ⟨hc', hr'⟩ heq
    simp only at heq
    rw [key (c, r) hc hr, key (c', r') hc' hr'] at heq
    have h : r * W + c = r' * W + c' := by exact_mod_cast heq
    obtain ⟨h1, h2⟩ := index_injective hc hc' h
    exact Prod.ext h1 h2
  · rintro z ⟨hz0, hz⟩
    lift z to ℕ using hz0 with n
    have hn : n < W * H := by exact_mod_cast hz
    have hW : 0 < W := by
      rcases Nat.eq_zero_or_pos W with h | h
      · subst h; simp at hn
      · exact h
    have hr : n / W < H := by
      rw [Nat.div_lt_iff_lt_mul hW, Nat.mul_comm]; exact hn
    refine ⟨(n % W, n / W), ⟨Nat.mod_lt _ hW, hr⟩, ?_⟩
    show index_C (wrap32 ((n / W : ℕ) : ℤ)) (W : ℤ) (wrap32 ((n % W : ℕ) : ℤ)) = (n : ℤ)
    rw [key (n % W, n / W) (Nat.mod_lt _ hW) hr]
    have := Nat.div_add_mod' n W
    exact_mod_cast this

/-- A work-item inside the range, for matrices whose element counts are below `2^31`, with the
dimensions given as natural numbers. -/
theorem matrix_multiply_of_fit {α : Type} [Zero α] [Add α] [Mul α] (gid : Nat → Nat)
    (output_C input_A input_B : List α) (width_A height_A width_B height_B : Nat)
    (hdim : width_A = height_B)
    (hA_len : input_A.length = height_A * width_A)
    (hB_len : input_B.length = height_B * width_B)
    (hC_len : output_C.length = height_A * width_B)
    (hA_fit : height_A * width_A < 2147483648) (hB_fit : height_B * width_B < 2147483648)
    (hC_fit : height_A * width_B < 2147483648)
    (hcol : gid 0 < width_B) (hrow : gid 1 < height_A) :
    gid 1 * width_B + gid 0 < output_C.length ∧
    index_C (wrap32 (gid 1)) width_B (wrap32 (gid 0)) = ((gid 1 * width_B + gid 0 : Nat) : Int) ∧
    matrix_multiply gid output_C width_A height_A width_B height_B input_A input_B
      = some (output_C.set (gid 1 * width_B + gid 0)
          (dotProductRef input_A input_B width_A width_B (gid 1) (gid 0))) := by
  have c1 : ((height_A : Int) * (width_A : Int)).toNat = height_A * width_A := by
    rw [← Nat.cast_mul, Int.toNat_ofNat]
  have c2 : ((height_B : Int) * (width_B : Int)).toNat = height_B * width_B := by
    rw [← Nat.cast_mul, Int.toNat_ofNat]
  have c3 : ((height_A : Int) * (width_B : Int)).toNat = height_A * width_B := by
    rw [← Nat.cast_mul, Int.toNat_ofNat]
  have f1 : (height_A : Int) * (width_A : Int) < 2147483648 := by
    rw [← Nat.cast_mul]; omega
  have f2 : (height_B : Int) * (width_B : Int) < 2147483648 := by
    rw [← Nat.cast_mul]; omega
  have f3 : (height_A : Int) * (width_B : Int) < 2147483648 := by
    rw [← Nat.cast_mul]; omega
  have g0 : (gid 0 : Int) < (width_B : Int) := by omega
  have g1 : (gid 1 : Int) < (height_A : Int) := by omega
  have h := matrix_multiply_result gid output_C input_A input_B (width_A : Int) (height_A : Int)
    (width_B : Int) (height_B : Int) (by rw [hdim]) (by rw [hA_len, c1]) (by rw [hB_len, c2])
    (by rw [hC_len, c3]) f1 f2 f3 g0 g1
  rw [Int.toNat_ofNat, Int.toNat_ofNat] at h
  exact h

/-- A work-item whose first 32-bit read index into `input_A` is negative fails. -/
theorem matrix_multiply_none_of_neg_load {α : Type} [Zero α] [Add α] [Mul α] (gid : Nat → Nat)
    (output_C input_A input_B : List α) (width_A height_A width_B height_B : Int)
    (hw : 0 < width_A) (hneg : index_A (wrap32 (gid 1)) width_A 0 < 0) :
    matrix_multiply gid output_C width_A height_A width_B height_B input_A input_B = none := by
  have hnot : ¬ (0 ≤ index_A (wrap32 (gid 1)) width_A 0) := by omega
  have hload : load input_A (index_A (wrap32 (gid 1)) width_A 0) = none := by
    rw [load, if_neg hnot]
  have hloop : matrix_multiply_loop width_A width_B (wrap32 (gid 1)) (wrap32 (gid 0))
      input_A input_B (width_A.toNat + 1) 0 (0 : α) = none := by
    rw [matrix_multiply_loop, if_pos hw, hload]
  have hunf : matrix_multiply gid output_C width_A height_A width_B height_B input_A input_B
      = match matrix_multiply_loop width_A width_B (wrap32 (gid 1 : Int))
          (wrap32 (gid 0 : Int)) input_A input_B (width_A.toNat + 1) 0 0 with
        | some sum => store output_C
            (index_C (wrap32 (gid 1 : Int)) width_B (wrap32 (gid 0 : Int))) sum
        | none => none := rfl
  rw [hunf, hloop]

/-- The 32-bit index of the store of line 18, for a work-item of a `W x H` range with
`W * H < 2^31`. -/
theorem index_C_of_lt {W H c r : Nat} (hfit : W * H < 2147483648) (hc : c < W) (hr : r < H) :
    index_C (wrap32 (r : Int)) (W : Int) (wrap32 (c : Int)) = ((r * W + c : Nat) : Int) := by
  have hlt : r * W + c < H * W := index_lt_of_lt hr hc
  have hH : H ≤ W * H := Nat.le_mul_of_pos_left H (by omega)
  have hW : W ≤ W * H := Nat.le_mul_of_pos_right W (by omega)
  rw [wrap32_natCast (by omega), wrap32_natCast (by omega), index_C,
    wrap32_index (by rw [Nat.mul_comm H W] at hlt; omega)]

/-- A row-major index inside a `h x w` matrix with `w * h < 2^31`: the 32-bit computation
yields the index itself, which is inside the matrix. -/
theorem index_of_fit {r h i w : Nat} (hr : r < h) (hi : i < w) (hfit : w * h < 2147483648) :
    wrap32 (wrap32 ((r : Int) * (w : Int)) + (i : Int)) = (r : Int) * (w : Int) + (i : Int) ∧
    0 ≤ wrap32 (wrap32 ((r : Int) * (w : Int)) + (i : Int)) ∧
    wrap32 (wrap32 ((r : Int) * (w : Int)) + (i : Int)) < (w : Int) * (h : Int) := by
  have h1 : ((r : Nat) : Int) < (h : Int) := by omega
  have h2 : ((i : Nat) : Int) < (w : Int) := by omega
  have h3 : (w : Int) * (h : Int) < 2147483648 := by rw [← Nat.cast_mul]; omega
  obtain ⟨e, b0, b1⟩ := int_index_bounds (Int.ofNat_nonneg r) h1 (Int.ofNat_nonneg i) h2 h3
  rw [e]
  exact ⟨rfl, b0, b1⟩

/-! ## Lemmas on the host program -/

/-- The fields of the state after `getPlatform`. -/
@[simp] theorem getPlatform_fields (rt : Runtime) (s : State) :
    (getPlatform rt s).err = rt.clGetPlatformIDs.errcode_ret ∧
    (getPlatform rt s).platform = rt.clGetPlatformIDs.handle ∧
    (getPlatform rt s).device = s.device ∧
    (getPlatform rt s).context = s.context ∧
    (getPlatform rt s).cmd_queue = s.cmd_queue ∧
    (getPlatform rt s).program = s.program ∧
    (getPlatform rt s).kernel = s.kernel ∧
    (getPlatform rt s).buffer_A = s.buffer_A ∧
    (getPlatform rt s).buffer_B = s.buffer_B ∧
    (getPlatform rt s).buffer_C = s.buffer_C ∧
    (getPlatform rt s).calls = s.calls ++ [Call.clGetPlatformIDs 1] ∧
    (getPlatform rt s).stdout = s.stdout := by
  simp [getPlatform, State.call, State.printf, State.valueOf]

/-- The fields of the state after `getDevice`. -/
@[simp] theorem getDevice_fields (rt : Runtime) (s : State) :
    (getDevice rt s).err = rt.clGetDeviceIDs.errcode_ret ∧
    (getDevice rt s).platform = s.platform ∧
    (getDevice rt s).device = rt.clGetDeviceIDs.handle ∧
    (getDevice rt s).context = s.context ∧
    (getDevice rt s).cmd_queue = s.cmd_queue ∧
    (getDevice rt s).program = s.program ∧
    (getDevice rt s).kernel = s.kernel ∧
    (getDevice rt s).buffer_A = s.buffer_A ∧
    (getDevice rt s).buffer_B = s.buffer_B ∧
    (getDevice rt s).buffer_C = s.buffer_C ∧
    (getDevice rt s).calls =
      s.calls ++ [Call.clGetDeviceIDs s.platform DeviceType.CL_DEVICE_TYPE_GPU 1] ∧
    (getDevice rt s).stdout = s.stdout := by
  simp [getDevice, State.call, State.printf, State.valueOf]

/-- The fields of the state after `createContext`. -/
@[simp] theorem createContext_fields (rt : Runtime) (s : State) :
    (createContext rt s).err = rt.clCreateContext.errcode_ret ∧
    (createContext rt s).platform = s.platform ∧
    (createContext rt s).device = s.device ∧
    (createContext rt s).context = rt.clCreateContext.handle ∧
    (createContext rt s).cmd_queue = s.cmd_queue ∧
    (createContext rt s).program = s.program ∧
    (createContext rt s).kernel = s.kernel ∧
    (createContext rt s).buffer_A = s.buffer_A ∧
    (createContext rt s).buffer_B = s.buffer_B ∧
    (createContext rt s).buffer_C = s.buffer_C ∧
    (createContext rt s).calls = s.calls ++ [Call.clCreateContext s.platform 1 s.device] ∧
    (createContext rt s).stdout = s.stdout := by
  simp [createContext, State.call, State.printf, State.valueOf]

/-- The fields of the state after `createCommandQueue`. -/
@[simp] theorem createCommandQueue_fields (rt : Runtime) (s : State) :
    (createCommandQueue rt s).err = rt.clCreateCommandQueue.errcode_ret ∧
    (createCommandQueue rt s).platform = s.platform ∧
    (createCommandQueue rt s).device = s.device ∧
    (createCommandQueue rt s).context = s.context ∧
    (createCommandQueue rt s).cmd_queue = rt.clCreateCommandQueue.handle ∧
    (createCommandQueue rt s).program = s.program ∧
    (createCommandQueue rt s).kernel = s.kernel ∧
    (createCommandQueue rt s).buffer_A = s.buffer_A ∧
    (createCommandQueue rt s).buffer_B = s.buffer_B ∧
    (createCommandQueue rt s).buffer_C = s.buffer_C ∧
    (createCommandQueue rt s).calls =
      s.calls ++ [Call.clCreateCommandQueue s.context s.device 0] ∧
    (createCommandQueue rt s).stdout = s.stdout := by
  simp [createCommandQueue, State.call, State.printf, State.valueOf]

/-- The fields of the state after `createBuffers`. -/
@[simp] theorem createBuffers_fields (rt : Runtime) (s : State) :
    (createBuffers rt s).err = rt.clCreateBuffer_C.errcode_ret ∧
    (createBuffers rt s).platform = s.platform ∧
    (createBuffers rt s).device = s.device ∧
    (createBuffers rt s).context = s.context ∧
    (createBuffers rt s).cmd_queue = s.cmd_queue ∧
    (createBuffers rt s).program = s.program ∧
    (createBuffers rt s).kernel = s.kernel ∧
    (createBuffers rt s).buffer_A = rt.clCreateBuffer_A.handle ∧
    (createBuffers rt s).buffer_B = rt.clCreateBuffer_B.handle ∧
    (createBuffers rt s).buffer_C = rt.clCreateBuffer_C.handle ∧
    (createBuffers rt s).calls = s.calls ++
       [Call.clCreateBuffer s.context MemFlags.CL_MEM_READ_ONLY size_A,
        Call.clCreateBuffer s.context MemFlags.CL_MEM_READ_ONLY size_B,
        Call.clCreateBuffer s.context MemFlags.CL_MEM_WRITE_ONLY size_C] ∧
    (createBuffers rt s).stdout = s.stdout := by
  simp [createBuffers, State.call, State.printf, State.valueOf]

/-- The fields of the state after `writeBuffers`. -/
@[simp] theorem writeBuffers_fields (rt : Runtime) (s : State) :
    (writeBuffers rt s).err = Int.lor rt.clEnqueueWriteBuffer_A rt.clEnqueueWriteBuffer_B ∧
    (writeBuffers rt s).platform = s.platform ∧
    (writeBuffers rt s).device = s.device ∧
    (writeBuffers rt s).context = s.context ∧
    (writeBuffers rt s).cmd_queue = s.cmd_queue ∧
    (writeBuffers rt s).program = s.program ∧
    (writeBuffers rt s).kernel = s.kernel ∧
    (writeBuffers rt s).buffer_A = s.buffer_A ∧
    (writeBuffers rt s).buffer_B = s.buffer_B ∧
    (writeBuffers rt s).buffer_C = s.buffer_C ∧
    (writeBuffers rt s).calls = s.calls ++
       [Call.clEnqueueWriteBuffer s.cmd_queue s.buffer_A CL_TRUE 0 size_A HostPtr.A,
        Call.clEnqueueWriteBuffer s.cmd_queue s.buffer_B CL_TRUE 0 size_B HostPtr.B] ∧
    (writeBuffers rt s).stdout = s.stdout := by
  simp [writeBuffers, State.call, State.printf, State.valueOf]

/-- The fields of the state after `createProgram`. -/
@[simp] theorem createProgram_fields (rt : Runtime) (s : State) :
    (createProgram rt s).err = rt.clCreateProgramWithSource.errcode_ret ∧
    (createProgram rt s).platform = s.platform ∧
    (createProgram rt s).device = s.device ∧
    (createProgram rt s).context = s.context ∧
    (createProgram rt s).cmd_queue = s.cmd_queue ∧
    (createProgram rt s).program = rt.clCreateProgramWithSource.handle ∧
    (createProgram rt s).kernel = s.kernel ∧
    (createProgram rt s).buffer_A = s.buffer_A ∧
    (createProgram rt s).buffer_B = s.buffer_B ∧
    (createProgram rt s).buffer_C = s.buffer_C ∧
    (createProgram rt s).calls = s.calls ++ [Call.clCreateProgramWithSource s.context 1] ∧
    (createProgram rt s).stdout = s.stdout := by
  simp [createProgram, State.call, State.printf, State.valueOf]

/-- The fields of the state after `buildProgram`. -/
@[simp] theorem buildProgram_fields (rt : Runtime) (s : State) :
    (buildProgram rt s).err = rt.clBuildProgram ∧
    (buildProgram rt s).platform = s.platform ∧
    (buildProgram rt s).device = s.device ∧
    (buildProgram rt s).context = s.context ∧
    (buildProgram rt s).cmd_queue = s.cmd_queue ∧
    (buildProgram rt s).program = s.program ∧
    (buildProgram rt s).kernel = s.kernel ∧
    (buildProgram rt s).buffer_A = s.buffer_A ∧
    (buildProgram rt s).buffer_B = s.buffer_B ∧
    (buildProgram rt s).buffer_C = s.buffer_C ∧
    (buildProgram rt s).calls = s.calls ++ [Call.clBuildProgram s.program 0] ∧
    (buildProgram rt s).stdout = s.stdout := by
  simp [buildProgram, State.call, State.printf, State.valueOf]

/-- The fields of the state after `reportBuildFailure`. -/
@[simp] theorem reportBuildFailure_fields (rt : Runtime) (s : State) :
    (reportBuildFailure rt s).err = s.err ∧
    (reportBuildFailure rt s).platform = s.platform ∧
    (reportBuildFailure rt s).device = s.device ∧
    (reportBuildFailure rt s).context = s.context ∧
    (reportBuildFailure rt s).cmd_queue = s.cmd_queue ∧
    (reportBuildFailure rt s).program = s.program ∧
    (reportBuildFailure rt s).kernel = s.kernel ∧
    (reportBuildFailure rt s).buffer_A = s.buffer_A ∧
    (reportBuildFailure rt s).buffer_B = s.buffer_B ∧
    (reportBuildFailure rt s).buffer_C = s.buffer_C ∧
    (reportBuildFailure rt s).calls =
      s.calls ++ [Call.clGetProgramBuildInfo s.program s.device 16384] ∧
    (reportBuildFailure rt s).stdout = s.stdout ++
      ["Failed to build program.\n", "Error in kernel: " ++ rt.build_log ++ "\n"] := by
  simp [reportBuildFailure, State.call, State.printf, State.valueOf]

/-- The fields of the state after `createKernel`. -/
@[simp] theorem createKernel_fields (rt : Runtime) (s : State) :
    (createKernel rt s).err = rt.clCreateKernel.errcode_ret ∧
    (createKernel rt s).platform = s.platform ∧
    (createKernel rt s).device = s.device ∧
    (createKernel rt s).context = s.context ∧
    (createKernel rt s).cmd_queue = s.cmd_queue ∧
    (createKernel rt s).program = s.program ∧
    (createKernel rt s).kernel = rt.clCreateKernel.handle ∧
    (createKernel rt s).buffer_A = s.buffer_A ∧
    (createKernel rt s).buffer_B = s.buffer_B ∧
    (createKernel rt s).buffer_C = s.buffer_C ∧
    (createKernel rt s).calls = s.calls ++ [Call.clCreateKernel s.program "matrix_multiply"] ∧
    (createKernel rt s).stdout = s.stdout := by
  simp [createKernel, State.call, State.printf, State.valueOf]

/-- The fields of the state after `setKernelArgs`. -/
@[simp] theorem setKernelArgs_fields (rt : Runtime) (s : State) :
    (setKernelArgs rt s).err =
      Int.lor (Int.lor (Int.lor (Int.lor (Int.lor (Int.lor (rt.clSetKernelArg 0)
        (rt.clSetKernelArg 1)) (rt.clSetKernelArg 2)) (rt.clSetKernelArg 3)) (rt.clSetKernelArg 4))
        (rt.clSetKernelArg 5)) (rt.clSetKernelArg 6) ∧
    (setKernelArgs rt s).platform = s.platform ∧
    (setKernelArgs rt s).device = s.device ∧
    (setKernelArgs rt s).context = s.context ∧
    (setKernelArgs rt s).cmd_queue = s.cmd_queue ∧
    (setKernelArgs rt s).program = s.program ∧
    (setKernelArgs rt s).kernel = s.kernel ∧
    (setKernelArgs rt s).buffer_A = s.buffer_A ∧
    (setKernelArgs rt s).buffer_B = s.buffer_B ∧
    (setKernelArgs rt s).buffer_C = s.buffer_C ∧
    (setKernelArgs rt s).calls = s.calls ++
       [Call.clSetKernelArg s.kernel 0 CType.cl_mem HostVar.buffer_C (ArgValue.mem s.buffer_C),
        Call.clSetKernelArg s.kernel 1 CType.cl_int HostVar.width_A (ArgValue.int width_A),
        Call.clSetKernelArg s.kernel 2 CType.cl_int HostVar.height_A (ArgValue.int height_A),
        Call.clSetKernelArg s.kernel 3 CType.cl_int HostVar.width_B (ArgValue.int width_B),
        Call.clSetKernelArg s.kernel 4 CType.cl_int HostVar.height_B (ArgValue.int height_B),
        Call.clSetKernelArg s.kernel 5 CType.cl_mem HostVar.buffer_A (ArgValue.mem s.buffer_A),
        Call.clSetKernelArg s.kernel 6 CType.cl_mem HostVar.buffer_B (ArgValue.mem s.buffer_B)] ∧
    (setKernelArgs rt s).stdout = s.stdout := by
  simp [setKernelArgs, State.call, State.printf, State.valueOf]

/-- The fields of the state after `enqueueKernel`. -/
@[simp] theorem enqueueKernel_fields (rt : Runtime) (s : State) :
    (enqueueKernel rt s).err = rt.clEnqueueNDRangeKernel ∧
    (enqueueKernel rt s).platform = s.platform ∧
    (enqueueKernel rt s).device = s.device ∧
    (enqueueKernel rt s).context = s.context ∧
    (enqueueKernel rt s).cmd_queue = s.cmd_queue ∧
    (enqueueKernel rt s).program = s.program ∧
    (enqueueKernel rt s).kernel = s.kernel ∧
    (enqueueKernel rt s).buffer_A = s.buffer_A ∧
    (enqueueKernel rt s).buffer_B = s.buffer_B ∧
    (enqueueKernel rt s).buffer_C = s.buffer_C ∧
    (enqueueKernel rt s).calls = s.calls ++
      [Call.clEnqueueNDRangeKernel s.cmd_queue s.kernel 2 global_work_size local_work_size] ∧
    (enqueueKernel rt s).stdout = s.stdout := by
  simp [enqueueKernel, State.call, State.printf, State.valueOf]

/-- The fields of the state after `transferC`. -/
@[simp] theorem transferC_fields (rt : Runtime) (s : State) :
    (transferC rt s).err = rt.clEnqueueWriteBuffer_C ∧
    (transferC rt s).platform = s.platform ∧
    (transferC rt s).device = s.device ∧
    (transferC rt s).context = s.context ∧
    (transferC rt s).cmd_queue = s.cmd_queue ∧
    (transferC rt s).program = s.program ∧
    (transferC rt s).kernel = s.kernel ∧
    (transferC rt s).buffer_A = s.buffer_A ∧
    (transferC rt s).buffer_B = s.buffer_B ∧
    (transferC rt s).buffer_C = s.buffer_C ∧
    (transferC rt s).calls = s.calls ++
      [Call.clEnqueueWriteBuffer s.cmd_queue s.buffer_C CL_TRUE 0 size_C HostPtr.C] ∧
    (transferC rt s).stdout = s.stdout := by
  simp [transferC, State.call, State.printf, State.valueOf]

/-- The fields of the state after `cleanup`. -/
@[simp] theorem cleanup_fields (s : State) :
    (cleanup s).err = s.err ∧
    (cleanup s).platform = s.platform ∧
    (cleanup s).device = s.device ∧
    (cleanup s).context = s.context ∧
    (cleanup s).cmd_queue = s.cmd_queue ∧
    (cleanup s).program = s.program ∧
    (cleanup s).kernel = s.kernel ∧
    (cleanup s).buffer_A = s.buffer_A ∧
    (cleanup s).buffer_B = s.buffer_B ∧
    (cleanup s).buffer_C = s.buffer_C ∧
    (cleanup s).calls = s.calls ++ [Call.clReleaseKernel s.kernel, Call.clReleaseProgram s.program,
        Call.clReleaseCommandQueue s.cmd_queue, Call.clReleaseMemObject s.buffer_A,
        Call.clReleaseMemObject s.buffer_B, Call.clReleaseMemObject s.buffer_C,
        Call.clReleaseContext s.context] ∧
    (cleanup s).stdout = s.stdout := by
  simp [cleanup, State.call, State.printf, State.valueOf]

/-- The fields of the state after `printf`. -/
@[simp] theorem printf_fields (s : State) (line : String) :
    (s.printf line).err = s.err ∧ (s.printf line).platform = s.platform ∧
    (s.printf line).device = s.device ∧ (s.printf line).context = s.context ∧
    (s.printf line).cmd_queue = s.cmd_queue ∧ (s.printf line).program = s.program ∧
    (s.printf line).kernel = s.kernel ∧ (s.printf line).buffer_A = s.buffer_A ∧
    (s.printf line).buffer_B = s.buffer_B ∧ (s.printf line).buffer_C = s.buffer_C ∧
    (s.printf line).calls = s.calls ∧ (s.printf line).stdout = s.stdout ++ [line] := by
  simp [State.printf]

/-- The fields of the state after `init`. -/
@[simp] theorem init_fields :
    init.err = 0 ∧ init.platform = NULL ∧ init.device = NULL ∧ init.context = NULL ∧
    init.cmd_queue = NULL ∧ init.program = NULL ∧ init.kernel = NULL ∧
    init.buffer_A = NULL ∧ init.buffer_B = NULL ∧ init.buffer_C = NULL ∧
    init.calls = [] ∧ init.stdout = [] := by
  simp [init]

/-- Case analysis on the path `main` takes to the label `error:`: one case per failing
test of `err`, and the case in which every test passes. -/
theorem main_body_cases (rt : Runtime) (P : State → Prop)
    (h0 :
      rt.clGetPlatformIDs.errcode_ret ≠ 0 →
      P ((afterPlatform rt).printf "Failed to get platform ID.\n"))
    (h1 :
      rt.clGetPlatformIDs.errcode_ret = 0 →
      rt.clGetDeviceIDs.errcode_ret ≠ 0 →
      P ((afterDevice rt).printf "Failed to get device ID.\n"))
    (h2 :
      rt.clGetPlatformIDs.errcode_ret = 0 →
      rt.clGetDeviceIDs.errcode_ret = 0 →
      rt.clCreateContext.errcode_ret ≠ 0 →
      P ((afterContext rt).printf "Failed to create OpenCL context.\n"))
    (h3 :
      rt.clGetPlatformIDs.errcode_ret = 0 →
      rt.clGetDeviceIDs.errcode_ret = 0 →
      rt.clCreateContext.errcode_ret = 0 →
      rt.clCreateCommandQueue.errcode_ret ≠ 0 →
      P ((afterQueue rt).printf "Failed to create command queue for device.\n"))
    (h4 :
      rt.clGetPlatformIDs.errcode_ret = 0 →
      rt.clGetDeviceIDs.errcode_ret = 0 →
      rt.clCreateContext.errcode_ret = 0 →
      rt.clCreateCommandQueue.errcode_ret = 0 →
      Int.lor rt.clEnqueueWriteBuffer_A rt.clEnqueueWriteBuffer_B ≠ 0 →
      P ((afterWrites rt).printf "Failed to copy data from host to device.\n"))
    (h5 :
      rt.clGetPlatformIDs.errcode_ret = 0 →
      rt.clGetDeviceIDs.errcode_ret = 0 →
      rt.clCreateContext.errcode_ret = 0 →
      rt.clCreateCommandQueue.errcode_ret = 0 →
      Int.lor rt.clEnqueueWriteBuffer_A rt.clEnqueueWriteBuffer_B = 0 →
      rt.clCreateProgramWithSource.errcode_ret ≠ 0 →
      P ((afterProgram rt).printf "Failed to create OpenCL program from source.\n"))
    (h6 :
      rt.clGetPlatformIDs.errcode_ret = 0 →
      rt.clGetDeviceIDs.errcode_ret = 0 →
      rt.clCreateContext.errcode_ret = 0 →
      rt.clCreateCommandQueue.errcode_ret = 0 →
      Int.lor rt.clEnqueueWriteBuffer_A rt.clEnqueueWriteBuffer_B = 0 →
      rt.clCreateProgramWithSource.errcode_ret = 0 →
      rt.clBuildProgram ≠ 0 →
      P (reportBuildFailure rt (afterBuild rt)))
    (h7 :
      rt.clGetPlatformIDs.errcode_ret = 0 →
      rt.clGetDeviceIDs.errcode_ret = 0 →
      rt.clCreateContext.errcode_ret = 0 →
      rt.clCreateCommandQueue.errcode_ret = 0 →
      Int.lor rt.clEnqueueWriteBuffer_A rt.clEnqueueWriteBuffer_B = 0 →
      rt.clCreateProgramWithSource.errcode_ret = 0 →
      rt.clBuildProgram = 0 →
      rt.clCreateKernel.errcode_ret ≠ 0 →
      P ((afterKernel rt).printf "Failed to create kernel.\n"))
    (h8 :
      rt.clGetPlatformIDs.errcode_ret = 0 →
      rt.clGetDeviceIDs.errcode_ret = 0 →
      rt.clCreateContext.errcode_ret = 0 →
      rt.clCreateCommandQueue.errcode_ret = 0 →
      Int.lor rt.clEnqueueWriteBuffer_A rt.clEnqueueWriteBuffer_B = 0 →
      rt.clCreateProgramWithSource.errcode_ret = 0 →
      rt.clBuildProgram = 0 →
      rt.clCreateKernel.errcode_ret = 0 →
      Int.lor (Int.lor (Int.lor (Int.lor (Int.lor (Int.lor (rt.clSetKernelArg 0)
        (rt.clSetKernelArg 1)) (rt.clSetKernelArg 2)) (rt.clSetKernelArg 3)) (rt.clSetKernelArg 4))
        (rt.clSetKernelArg 5)) (rt.clSetKernelArg 6) ≠ 0 →
      P ((afterArgs rt).printf "Failed to set kernel arguments.\n"))
    (h9 :
      rt.clGetPlatformIDs.errcode_ret = 0 →
      rt.clGetDeviceIDs.errcode_ret = 0 →
      rt.clCreateContext.errcode_ret = 0 →
      rt.clCreateCommandQueue.errcode_ret = 0 →
      Int.lor rt.clEnqueueWriteBuffer_A rt.clEnqueueWriteBuffer_B = 0 →
      rt.clCreateProgramWithSource.errcode_ret = 0 →
      rt.clBuildProgram = 0 →
      rt.clCreateKernel.errcode_ret = 0 →
      Int.lor (Int.lor (Int.lor (Int.lor (Int.lor (Int.lor (rt.clSetKernelArg 0)
        (rt.clSetKernelArg 1)) (rt.clSetKernelArg 2)) (rt.clSetKernelArg 3)) (rt.clSetKernelArg 4))
        (rt.clSetKernelArg 5)) (rt.clSetKernelArg 6) = 0 →
      rt.clEnqueueNDRangeKernel ≠ 0 →
      P ((afterDispatch rt).printf "Failed to queue kernel for execution.\n"))
    (h10 :
      rt.clGetPlatformIDs.errcode_ret = 0 →
      rt.clGetDeviceIDs.errcode_ret = 0 →
      rt.clCreateContext.errcode_ret = 0 →
      rt.clCreateCommandQueue.errcode_ret = 0 →
      Int.lor rt.clEnqueueWriteBuffer_A rt.clEnqueueWriteBuffer_B = 0 →
      rt.clCreateProgramWithSource.errcode_ret = 0 →
      rt.clBuildProgram = 0 →
      rt.clCreateKernel.errcode_ret = 0 →
      Int.lor (Int.lor (Int.lor (Int.lor (Int.lor (Int.lor (rt.clSetKernelArg 0)
        (rt.clSetKernelArg 1)) (rt.clSetKernelArg 2)) (rt.clSetKernelArg 3)) (rt.clSetKernelArg 4))
        (rt.clSetKernelArg 5)) (rt.clSetKernelArg 6) = 0 →
      rt.clEnqueueNDRangeKernel = 0 →
      rt.clEnqueueWriteBuffer_C ≠ 0 →
      P ((afterTransfer rt).printf "Failed to copy data from device to host.\n"))
    (h11 :
      rt.clGetPlatformIDs.errcode_ret = 0 →
      rt.clGetDeviceIDs.errcode_ret = 0 →
      rt.clCreateContext.errcode_ret = 0 →
      rt.clCreateCommandQueue.errcode_ret = 0 →
      Int.lor rt.clEnqueueWriteBuffer_A rt.clEnqueueWriteBuffer_B = 0 →
      rt.clCreateProgramWithSource.errcode_ret = 0 →
      rt.clBuildProgram = 0 →
      rt.clCreateKernel.errcode_ret = 0 →
      Int.lor (Int.lor (Int.lor (Int.lor (Int.lor (Int.lor (rt.clSetKernelArg 0)
        (rt.clSetKernelArg 1)) (rt.clSetKernelArg 2)) (rt.clSetKernelArg 3)) (rt.clSetKernelArg 4))
        (rt.clSetKernelArg 5)) (rt.clSetKernelArg 6) = 0 →
      rt.clEnqueueNDRangeKernel = 0 →
      rt.clEnqueueWriteBuffer_C = 0 →
      P (afterTransfer rt)) :
    P (main_body rt) := by
  by_cases c0 : rt.clGetPlatformIDs.errcode_ret = 0
  swap
  · simpa [main_body, afterPlatform, afterDevice, afterContext, afterQueue, afterWrites,
      afterProgram, afterBuild, afterKernel, afterArgs, afterDispatch, afterTransfer, CL_SUCCESS,
      c0] using h0 c0
  by_cases c1 : rt.clGetDeviceIDs.errcode_ret = 0
  swap
  · simpa [main_body, afterPlatform, afterDevice, afterContext, afterQueue, afterWrites,
      afterProgram, afterBuild, afterKernel, afterArgs, afterDispatch, afterTransfer, CL_SUCCESS,
      c0, c1] using h1 c0 c1
  by_cases c2 : rt.clCreateContext.errcode_ret = 0
  swap
  · simpa [main_body, afterPlatform, afterDevice, afterContext, afterQueue, afterWrites,
      afterProgram, afterBuild, afterKernel, afterArgs, afterDispatch, afterTransfer, CL_SUCCESS,
      c0, c1, c2] using h2 c0 c1 c2
  by_cases c3 : rt.clCreateCommandQueue.errcode_ret = 0
  swap
  · simpa [main_body, afterPlatform, afterDevice, afterContext, afterQueue, afterWrites,
      afterProgram, afterBuild, afterKernel, afterArgs, afterDispatch, afterTransfer, CL_SUCCESS,
      c0, c1, c2, c3] using h3 c0 c1 c2 c3
  by_cases c4 : Int.lor rt.clEnqueueWriteBuffer_A rt.clEnqueueWriteBuffer_B = 0
  swap
  · simpa [main_body, afterPlatform, afterDevice, afterContext, afterQueue, afterWrites,
      afterProgram, afterBuild, afterKernel, afterArgs, afterDispatch, afterTransfer, CL_SUCCESS,
      c0, c1, c2, c3, c4] using h4 c0 c1 c2 c3 c4
  by_cases c5 : rt.clCreateProgramWithSource.errcode_ret = 0
  swap
  · simpa [main_body, afterPlatform, afterDevice, afterContext, afterQueue, afterWrites,
      afterProgram, afterBuild, afterKernel, afterArgs, afterDispatch, afterTransfer, CL_SUCCESS,
      c0, c1, c2, c3, c4, c5] using h5 c0 c1 c2 c3 c4 c5
  by_cases c6 : rt.clBuildProgram = 0
  swap
  · simpa [main_body, afterPlatform, afterDevice, afterContext, afterQueue, afterWrites,
      afterProgram, afterBuild, afterKernel, afterArgs, afterDispatch, afterTransfer, CL_SUCCESS,
      c0, c1, c2, c3, c4, c5, c6] using h6 c0 c1 c2 c3 c4 c5 c6
  by_cases c7 : rt.clCreateKernel.errcode_ret = 0
  swap
  · simpa [main_body, afterPlatform, afterDevice, afterContext, afterQueue, afterWrites,
      afterProgram, afterBuild, afterKernel, afterArgs, afterDispatch, afterTransfer, CL_SUCCESS,
      c0, c1, c2, c3, c4, c5, c6, c7] using h7 c0 c1 c2 c3 c4 c5 c6 c7
  by_cases c8 : Int.lor (Int.lor (Int.lor (Int.lor (Int.lor (Int.lor (rt.clSetKernelArg 0)
        (rt.clSetKernelArg 1)) (rt.clSetKernelArg 2)) (rt.clSetKernelArg 3)) (rt.clSetKernelArg 4))
        (rt.clSetKernelArg 5)) (rt.clSetKernelArg 6) = 0
  swap
  · simpa [main_body, afterPlatform, afterDevice, afterContext, afterQueue, afterWrites,
      afterProgram, afterBuild, afterKernel, afterArgs, afterDispatch, afterTransfer, CL_SUCCESS,
      c0, c1, c2, c3, c4, c5, c6, c7, c8] using h8 c0 c1 c2 c3 c4 c5 c6 c7 c8
  by_cases c9 : rt.clEnqueueNDRangeKernel = 0
  swap
  · simpa [main_body, afterPlatform, afterDevice, afterContext, afterQueue, afterWrites,
      afterProgram, afterBuild, afterKernel, afterArgs, afterDispatch, afterTransfer, CL_SUCCESS,
      c0, c1, c2, c3, c4, c5, c6, c7, c8, c9] using h9 c0 c1 c2 c3 c4 c5 c6 c7 c8 c9
  by_cases c10 : rt.clEnqueueWriteBuffer_C = 0
  swap
  · simpa [main_body, afterPlatform, afterDevice, afterContext, afterQueue, afterWrites,
      afterProgram, afterBuild, afterKernel, afterArgs, afterDispatch, afterTransfer, CL_SUCCESS,
      c0, c1, c2, c3, c4, c5, c6, c7, c8, c9, c10] using h10 c0 c1 c2 c3 c4 c5 c6 c7 c8 c9 c10
  simpa [main_body, afterPlatform, afterDevice, afterContext, afterQueue, afterWrites,
      afterProgram, afterBuild, afterKernel, afterArgs, afterDispatch, afterTransfer, CL_SUCCESS,
    c0, c1, c2, c3, c4, c5, c6, c7, c8, c9, c10] using h11 c0 c1 c2 c3 c4 c5 c6 c7 c8 c9 c10

/-- The bitwise or of two naturals is zero only when both are. -/
theorem nat_lor_eq_zero (m n : Nat) : m ||| n = 0 ↔ m = 0 ∧ n = 0 := by
  constructor
  · intro h
    have ht : ∀ i, (m ||| n).testBit i = false := by intro i; rw [h]; simp
    simp only [Nat.testBit_or, Bool.or_eq_false_iff] at ht
    exact ⟨Nat.eq_of_testBit_eq (fun i => by simp [(ht i).1]),
      Nat.eq_of_testBit_eq (fun i => by simp [(ht i).2])⟩
  · rintro ⟨rfl, rfl⟩; rfl

/-- The bitwise or of two statuses is zero only when both are. -/
theorem lor_eq_zero (a b : Int) : Int.lor a b = 0 ↔ a = 0 ∧ b = 0 := by
  cases a <;> cases b <;> simp [Int.lor, nat_lor_eq_zero]

/-- The bitwise or of two statuses is non-zero exactly when one of them is. -/
theorem lor_ne_zero (a b : Int) : Int.lor a b ≠ 0 ↔ a ≠ 0 ∨ b ≠ 0 := by
  rw [Ne, lor_eq_zero]; tauto

/-- The bitwise or of seven statuses is non-zero exactly when one of them is. -/
theorem lor7_ne_zero (f : Nat → Int) :
    Int.lor (Int.lor (Int.lor (Int.lor (Int.lor (Int.lor (f 0) (f 1)) (f 2)) (f 3)) (f 4)) (f 5))
      (f 6) ≠ 0 ↔ ∃ i, i < 7 ∧ f i ≠ 0 := by
  simp only [lor_ne_zero]
  constructor
  · rintro (((((((h | h) | h) | h) | h) | h)) | h)
    exacts [⟨0, by omega, h⟩, ⟨1, by omega, h⟩, ⟨2, by omega, h⟩, ⟨3, by omega, h⟩,
      ⟨4, by omega, h⟩, ⟨5, by omega, h⟩, ⟨6, by omega, h⟩]
  · rintro ⟨i, hi, h⟩
    interval_cases i <;> simp [h]

/-- The first failure of a list is `CL_SUCCESS` exactly when every status in it is. -/
theorem firstFailure_eq_zero_iff (l : List Int) :
    firstFailure l = CL_SUCCESS ↔ ∀ e ∈ l, e = CL_SUCCESS := by
  induction l with
  | nil => simp [firstFailure]
  | cons a l ih =>
    by_cases ha : a = CL_SUCCESS
    · simp [firstFailure, ha, ih]
    · simp [firstFailure, ha]

/-- The first failure of a list is its first status that is not `CL_SUCCESS`. -/
theorem firstFailure_append (l₁ l₂ : List Int) (e : Int) (h₁ : ∀ x ∈ l₁, x = CL_SUCCESS)
    (he : e ≠ CL_SUCCESS) : firstFailure (l₁ ++ e :: l₂) = e := by
  induction l₁ with
  | nil => simp [firstFailure, he]
  | cons a l ih =>
    have ha : a = CL_SUCCESS := h₁ a (List.mem_cons_self _ _)
    have := ih (fun x hx => h₁ x (List.mem_cons_of_mem _ hx))
    simp [firstFailure, ha, this]

/-- An entry before position `j` of a list whose first `j` entries are zero is zero. -/
theorem take_all_zero_of_getD {l : List Int} {k j : Nat} (hkj : k < j)
    (hz : ∀ e ∈ l.take j, e = 0) : l.getD k 0 = 0 := by
  rw [List.getD_eq_getElem?_getD]
  cases hk : l[k]? with
  | none => rfl
  | some e =>
    have h1 : (l.take j)[k]? = some e := by rw [List.getElem?_take_of_lt hkj, hk]
    have : e = 0 := hz e (List.getElem?_mem h1)
    simpa using this

/-- After an issued creation call the variable holds what `held` says. -/
theorem held_true (r : Created) (h : r.NullOnFailure) : held true r = r.handle := by
  unfold held
  by_cases he : r.errcode_ret = CL_SUCCESS
  · simp [he]
  · simp [he, h he]

/-- A variable whose creation call was not issued is still `NULL`. -/
theorem held_false (r : Created) : held false r = NULL := by simp [held]

/-- The calls of `main` are those of the pipeline followed by those of the cleanup block. -/
theorem main_calls (rt : Runtime) : (main rt).calls = (cleanup (main_body rt)).calls := rfl

/-- The shape of every run: pipeline calls of stages up to some `m` whose earlier stages all
passed, then only the build-log query (after a failed build) and the release calls. -/
theorem stage_calls_aux (rt : Runtime) :
    ∃ m body tail, (main rt).calls = body ++ tail ∧
      (∀ c ∈ body, ∃ j, c.stage = some j ∧ j < m + 1) ∧
      (∀ c ∈ tail,
        c.isRelease = true ∨ (c.isBuildLogQuery = true ∧ rt.clBuildProgram ≠ CL_SUCCESS)) ∧
      (∀ e ∈ (stageCodes rt).take m, e = 0) := by
  rw [main_calls]
  apply main_body_cases rt (fun s =>
    ∃ m body tail, (cleanup s).calls = body ++ tail ∧
      (∀ c ∈ body, ∃ j, c.stage = some j ∧ j < m + 1) ∧
      (∀ c ∈ tail,
        c.isRelease = true ∨ (c.isBuildLogQuery = true ∧ rt.clBuildProgram ≠ CL_SUCCESS)) ∧
      (∀ e ∈ (stageCodes rt).take m, e = 0))
  · intros
    refine ⟨0, (afterPlatform rt).calls, releases (afterPlatform rt), ?_, ?_, ?_, ?_⟩
    · simp [releases]
    · simp [afterPlatform, afterDevice, afterContext, afterQueue, afterWrites, afterProgram,
      afterBuild, afterKernel, afterArgs, afterDispatch, afterTransfer, Call.stage]
    · simp [releases, Call.isRelease, Call.isBuildLogQuery, CL_SUCCESS, *]
    · simp [stageCodes, *]
  · intros
    refine ⟨1, (afterDevice rt).calls, releases (afterDevice rt), ?_, ?_, ?_, ?_⟩
    · simp [releases]
    · simp [afterPlatform, afterDevice, afterContext, afterQueue, afterWrites, afterProgram,
      afterBuild, afterKernel, afterArgs, afterDispatch, afterTransfer, Call.stage]
    · simp [releases, Call.isRelease, Call.isBuildLogQuery, CL_SUCCESS, *]
    · simp [stageCodes, *]
  · intros
    refine ⟨2, (afterContext rt).calls, releases (afterContext rt), ?_, ?_, ?_, ?_⟩
    · simp [releases]
    · simp [afterPlatform, afterDevice, afterContext, afterQueue, afterWrites, afterProgram,
      afterBuild, afterKernel, afterArgs, afterDispatch, afterTransfer, Call.stage]
    · simp [releases, Call.isRelease, Call.isBuildLogQuery, CL_SUCCESS, *]
    · simp [stageCodes, *]
  · intros
    refine ⟨3, (afterQueue rt).calls, releases (afterQueue rt), ?_, ?_, ?_, ?_⟩
    · simp [releases]
    · simp [afterPlatform, afterDevice, afterContext, afterQueue, afterWrites, afterProgram,
      afterBuild, afterKernel, afterArgs, afterDispatch, afterTransfer, Call.stage]
    · simp [releases, Call.isRelease, Call.isBuildLogQuery, CL_SUCCESS, *]
    · simp [stageCodes, *]
  · intros
    refine ⟨4, (afterWrites rt).calls, releases (afterWrites rt), ?_, ?_, ?_, ?_⟩
    · simp [releases]
    · simp [afterPlatform, afterDevice, afterContext, afterQueue, afterWrites, afterProgram,
      afterBuild, afterKernel, afterArgs, afterDispatch, afterTransfer, Call.stage]
    · simp [releases, Call.isRelease, Call.isBuildLogQuery, CL_SUCCESS, *]
    · simp [stageCodes, *]
  · intros
    refine ⟨5, (afterProgram rt).calls, releases (afterProgram rt), ?_, ?_, ?_, ?_⟩
    · simp [releases]
    · simp [afterPlatform, afterDevice, afterContext, afterQueue, afterWrites, afterProgram,
      afterBuild, afterKernel, afterArgs, afterDispatch, afterTransfer, Call.stage]
    · simp [releases, Call.isRelease, Call.isBuildLogQuery, CL_SUCCESS, *]
    · simp [stageCodes, *]
  · intros
    refine ⟨6, (afterBuild rt).calls,
      Call.clGetProgramBuildInfo (afterBuild rt).program (afterBuild rt).device 16384 ::
        releases (afterBuild rt), ?_, ?_, ?_, ?_⟩
    · simp [releases]
    · simp [afterPlatform, afterDevice, afterContext, afterQueue, afterWrites, afterProgram,
      afterBuild, afterKernel, afterArgs, afterDispatch, afterTransfer, Call.stage]
    · simp [releases, Call.isRelease, Call.isBuildLogQuery, CL_SUCCESS, *]
    · simp [stageCodes, *]
  · intros
    refine ⟨7, (afterKernel rt).calls, releases (afterKernel rt), ?_, ?_, ?_, ?_⟩
    · simp [releases]
    · simp [afterPlatform, afterDevice, afterContext, afterQueue, afterWrites, afterProgram,
      afterBuild, afterKernel, afterArgs, afterDispatch, afterTransfer, Call.stage]
    · simp [releases, Call.isRelease, Call.isBuildLogQuery, CL_SUCCESS, *]
    · simp [stageCodes, *]
  · intros
    refine ⟨8, (afterArgs rt).calls, releases (afterArgs rt), ?_, ?_, ?_, ?_⟩
    · simp [releases]
    · simp [afterPlatform, afterDevice, afterContext, afterQueue, afterWrites, afterProgram,
      afterBuild, afterKernel, afterArgs, afterDispatch, afterTransfer, Call.stage]
    · simp [releases, Call.isRelease, Call.isBuildLogQuery, CL_SUCCESS, *]
    · simp [stageCodes, *]
  · intros
    refine ⟨9, (afterDispatch rt).calls, releases (afterDispatch rt), ?_, ?_, ?_, ?_⟩
    · simp [releases]
    · simp [afterPlatform, afterDevice, afterContext, afterQueue, afterWrites, afterProgram,
      afterBuild, afterKernel, afterArgs, afterDispatch, afterTransfer, Call.stage]
    · simp [releases, Call.isRelease, Call.isBuildLogQuery, CL_SUCCESS, *]
    · simp [stageCodes, *]
  · intros
    refine ⟨10, (afterTransfer rt).calls, releases (afterTransfer rt), ?_, ?_, ?_, ?_⟩
    · simp [releases]
    · simp [afterPlatform, afterDevice, afterContext, afterQueue, afterWrites, afterProgram,
      afterBuild, afterKernel, afterArgs, afterDispatch, afterTransfer, Call.stage]
    · simp [releases, Call.isRelease, Call.isBuildLogQuery, CL_SUCCESS, *]
    · simp [stageCodes, *]
  · intros
    refine ⟨11, (afterTransfer rt).calls, releases (afterTransfer rt), ?_, ?_, ?_, ?_⟩
    · simp [releases]
    · simp [afterPlatform, afterDevice, afterContext, afterQueue, afterWrites, afterProgram,
      afterBuild, afterKernel, afterArgs, afterDispatch, afterTransfer, Call.stage]
    · simp [releases, Call.isRelease, Call.isBuildLogQuery, CL_SUCCESS, *]
    · simp [stageCodes, *]

/-- No run of `main` issues a `clEnqueueReadBuffer`. -/
theorem never_reads (rt : Runtime) : (main rt).calls.any Call.isReadBuffer = false := by
  rw [main_calls]
  apply main_body_cases rt (fun s => (cleanup s).calls.any Call.isReadBuffer = false)
  all_goals
    intros
    simp [afterPlatform, afterDevice, afterContext, afterQueue, afterWrites, afterProgram,
      afterBuild, afterKernel, afterArgs, afterDispatch, afterTransfer, Call.isReadBuffer]

/-- The bindings made before the dispatch, on every run that reaches the dispatch. -/
theorem bound_args_before_dispatch (rt : Runtime)
    (hd : (main rt).calls.any Call.isDispatch = true) :
    boundArgs ((main rt).calls.takeWhile (fun c => !c.isDispatch)) =
      [⟨rt.clCreateKernel.handle, 0, .cl_mem, .buffer_C, .mem rt.clCreateBuffer_C.handle⟩,
       ⟨rt.clCreateKernel.handle, 1, .cl_int, .width_A, .int width_A⟩,
       ⟨rt.clCreateKernel.handle, 2, .cl_int, .height_A, .int height_A⟩,
       ⟨rt.clCreateKernel.handle, 3, .cl_int, .width_B, .int width_B⟩,
       ⟨rt.clCreateKernel.handle, 4, .cl_int, .height_B, .int height_B⟩,
       ⟨rt.clCreateKernel.handle, 5, .cl_mem, .buffer_A, .mem rt.clCreateBuffer_A.handle⟩,
       ⟨rt.clCreateKernel.handle, 6, .cl_mem, .buffer_B, .mem rt.clCreateBuffer_B.handle⟩] := by
  revert hd
  rw [main_calls]
  apply main_body_cases rt (fun s => (cleanup s).calls.any Call.isDispatch = true →
    boundArgs ((cleanup s).calls.takeWhile (fun c => !c.isDispatch)) =
      [⟨rt.clCreateKernel.handle, 0, .cl_mem, .buffer_C, .mem rt.clCreateBuffer_C.handle⟩,
       ⟨rt.clCreateKernel.handle, 1, .cl_int, .width_A, .int width_A⟩,
       ⟨rt.clCreateKernel.handle, 2, .cl_int, .height_A, .int height_A⟩,
       ⟨rt.clCreateKernel.handle, 3, .cl_int, .width_B, .int width_B⟩,
       ⟨rt.clCreateKernel.handle, 4, .cl_int, .height_B, .int height_B⟩,
       ⟨rt.clCreateKernel.handle, 5, .cl_mem, .buffer_A, .mem rt.clCreateBuffer_A.handle⟩,
       ⟨rt.clCreateKernel.handle, 6, .cl_mem, .buffer_B, .mem rt.clCreateBuffer_B.handle⟩])
  all_goals
    intros
    rename_i hd
    simp only [afterPlatform, afterDevice, afterContext, afterQueue, afterWrites, afterProgram,
      afterBuild, afterKernel, afterArgs, afterDispatch, afterTransfer, cleanup_fields,
      printf_fields, reportBuildFailure_fields, getPlatform_fields, getDevice_fields,
      createContext_fields, createCommandQueue_fields, createBuffers_fields, writeBuffers_fields,
      createProgram_fields, buildProgram_fields, createKernel_fields, setKernelArgs_fields,
      enqueueKernel_fields, transferC_fields, init_fields, List.nil_append, List.append_assoc,
      List.cons_append, List.singleton_append] at hd ⊢
    first
      | rfl
      | simp [Call.isDispatch] at hd

/-- A run that reaches the dispatch has extracted one kernel, under the name
`matrix_multiply`. -/
theorem kernel_name_of_dispatched (rt : Runtime)
    (hd : (main rt).calls.any Call.isDispatch = true) :
    (main rt).calls.filterMap Call.kernelName = ["matrix_multiply"] := by
  revert hd
  rw [main_calls]
  apply main_body_cases rt (fun s => (cleanup s).calls.any Call.isDispatch = true →
    (cleanup s).calls.filterMap Call.kernelName = ["matrix_multiply"])
  all_goals
    intros
    rename_i hd
    simp only [afterPlatform, afterDevice, afterContext, afterQueue, afterWrites, afterProgram,
      afterBuild, afterKernel, afterArgs, afterDispatch, afterTransfer, cleanup_fields,
      printf_fields, reportBuildFailure_fields, getPlatform_fields, getDevice_fields,
      createContext_fields, createCommandQueue_fields, createBuffers_fields, writeBuffers_fields,
      createProgram_fields, buildProgram_fields, createKernel_fields, setKernelArgs_fields,
      enqueueKernel_fields, transferC_fields, init_fields, List.nil_append, List.append_assoc,
      List.cons_append, List.singleton_append] at hd ⊢
    first
      | rfl
      | simp [Call.isDispatch] at hd

/-- No argument is bound after the dispatch. -/
theorem bound_args_whole_run (rt : Runtime) :
    boundArgs (main rt).calls = boundArgs ((main rt).calls.takeWhile (fun c => !c.isDispatch)) := by
  rw [main_calls]
  apply main_body_cases rt (fun s =>
    boundArgs (cleanup s).calls = boundArgs ((cleanup s).calls.takeWhile (fun c => !c.isDispatch)))
  all_goals
    intros
    simp only [afterPlatform, afterDevice, afterContext, afterQueue, afterWrites, afterProgram,
      afterBuild, afterKernel, afterArgs, afterDispatch, afterTransfer, cleanup_fields,
      printf_fields, reportBuildFailure_fields, getPlatform_fields, getDevice_fields,
      createContext_fields, createCommandQueue_fields, createBuffers_fields, writeBuffers_fields,
      createProgram_fields, buildProgram_fields, createKernel_fields, setKernelArgs_fields,
      enqueueKernel_fields, transferC_fields, init_fields, List.nil_append, List.append_assoc,
      List.cons_append, List.singleton_append]
    rfl

/-- The global work sizes of the dispatches of a run: one dispatch, of size `global_work_size`,
when the first nine tests of `err` pass, and none otherwise. -/
theorem dispatch_sizes (rt : Runtime) :
    (main rt).calls.filterMap Call.globalWorkSize =
      if ∀ e ∈ (stageCodes rt).take 9, e = CL_SUCCESS then [global_work_size] else [] := by
  rw [main_calls]
  apply main_body_cases rt (fun s => (cleanup s).calls.filterMap Call.globalWorkSize =
      if ∀ e ∈ (stageCodes rt).take 9, e = CL_SUCCESS then [global_work_size] else [])
  all_goals
    intros
    simp only [afterPlatform, afterDevice, afterContext, afterQueue, afterWrites, afterProgram,
      afterBuild, afterKernel, afterArgs, afterDispatch, afterTransfer, cleanup_fields,
      printf_fields, reportBuildFailure_fields, getPlatform_fields, getDevice_fields,
      createContext_fields, createCommandQueue_fields, createBuffers_fields, writeBuffers_fields,
      createProgram_fields, buildProgram_fields, createKernel_fields, setKernelArgs_fields,
      enqueueKernel_fields, transferC_fields, init_fields, List.nil_append, List.append_assoc,
      List.cons_append, List.singleton_append]
    first
      | (rw [if_pos (by simp [stageCodes, CL_SUCCESS, *])]; rfl)
      | (rw [if_neg (by simp [stageCodes, CL_SUCCESS, *])]; rfl)

/-! ## The claims -/

/-- Counterexample to C1 as stated.  Dimensions `width_A = height_B = 1`, `height_A = 32769`,
`width_B = 65536`, buffers of exactly the matrix sizes, work-item `(col, row) = (0, 32768)`
inside the range: the 32-bit product `row * width_B` wraps around, the index of the store of
line 18 is `-2147483648` instead of `2147483648`, and the work-item stores nothing at
`output_C[row * width_B + col]`. -/
theorem matrix_multiply_store_index_wraps :
    ((1 : Int) = 1) ∧
    (List.replicate 32769 (0 : Int)).length = ((32769 : Int) * 1).toNat ∧
    (List.replicate 65536 (0 : Int)).length = ((1 : Int) * 65536).toNat ∧
    (List.replicate 2147549184 (0 : Int)).length = ((32769 : Int) * 65536).toNat ∧
    (get_global_id (0, 32768) 0 : Int) < 65536 ∧ (get_global_id (0, 32768) 1 : Int) < 32769 ∧
    (get_global_id (0, 32768) 1 : Int) * 65536 + (get_global_id (0, 32768) 0 : Int)
      = 2147483648 ∧
    index_C (wrap32 (get_global_id (0, 32768) 1)) 65536 (wrap32 (get_global_id (0, 32768) 0))
      = -2147483648 ∧
    matrix_multiply (get_global_id (0, 32768)) (List.replicate 2147549184 (0 : Int))
      1 32769 65536 1 (List.replicate 32769 0) (List.replicate 65536 0) = none :=
  ⟨rfl, by rw [List.length_replicate]; decide, by rw [List.length_replicate]; decide,
    by rw [List.length_replicate]; decide, by decide, by decide, by decide, by decide,
    matrix_multiply_none_of_neg _ _ _ _ _ _ _ _ (by decide)⟩

/-- Claim C1, amended.  The kernel equals the reference dot product when no index computation
overflows.  For all dimensions with `width_A = height_B` whose element counts
`height_A * width_A`, `height_B * width_B` and `height_A * width_B` are below `2^31`, all
row-major inputs `input_A` (`height_A x width_A`) and `input_B` (`height_B x width_B`), an
output buffer of `height_A x width_B` elements, and every work-item with
`col = gid 0 < width_B` and `row = gid 1 < height_A`: the 32-bit index of the store of line 18
is `row * width_B + col`, the work-item returns, it changes `output_C` at that index only, and
the value stored there is the left-to-right sum from `0` over `i = 0 .. width_A - 1` of
`input_A[row * width_A + i] * input_B[i * width_B + col]`. -/
theorem matrix_multiply_computes_dot_product {α : Type} [Zero α] [Add α] [Mul α]
    (gid : Nat → Nat) (output_C input_A input_B : List α)
    (width_A height_A width_B height_B : Nat)
    (hdim : width_A = height_B)
    (hA_len : input_A.length = height_A * width_A)
    (hB_len : input_B.length = height_B * width_B)
    (hC_len : output_C.length = height_A * width_B)
    (hA_fit : height_A * width_A < 2147483648) (hB_fit : height_B * width_B < 2147483648)
    (hC_fit : height_A * width_B < 2147483648)
    (hcol : gid 0 < width_B) (hrow : gid 1 < height_A) :
    index_C (wrap32 (gid 1)) width_B (wrap32 (gid 0)) = ((gid 1 * width_B + gid 0 : Nat) : Int) ∧
    matrix_multiply gid output_C width_A height_A width_B height_B input_A input_B
      = some (output_C.set (gid 1 * width_B + gid 0)
          (dotProductRef input_A input_B width_A width_B (gid 1) (gid 0))) ∧
    (output_C.set (gid 1 * width_B + gid 0)
        (dotProductRef input_A input_B width_A width_B (gid 1) (gid 0)))[
          gid 1 * width_B + gid 0]?
      = some (dotProductRef input_A input_B width_A width_B (gid 1) (gid 0)) := by
  obtain ⟨hlt, hidx, hres⟩ := matrix_multiply_of_fit gid output_C input_A input_B width_A
    height_A width_B height_B hdim hA_len hB_len hC_len hA_fit hB_fit hC_fit hcol hrow
  refine ⟨hidx, hres, ?_⟩
  simp [List.getElem?_set, hlt]

/-- Witness for C1, amended: a `2 x 3` matrix times a `3 x 2` matrix, work-item
`(col, row) = (1, 1)`; the stored value is `4 * 8 + 5 * 10 + 6 * 12 = 154`. -/
theorem matrix_multiply_computes_dot_product_witness :
    ((3 : Nat) = 3) ∧
    ([1, 2, 3, 4, 5, 6] : List Int).length = 2 * 3 ∧
    ([7, 8, 9, 10, 11, 12] : List Int).length = 3 * 2 ∧
    ([0, 0, 0, 0] : List Int).length = 2 * 2 ∧
    2 * 3 < 2147483648 ∧ 3 * 2 < 2147483648 ∧ 2 * 2 < 2147483648 ∧
    get_global_id (1, 1) 0 < 2 ∧ get_global_id (1, 1) 1 < 2 ∧
    matrix_multiply (get_global_id (1, 1)) [0, 0, 0, 0] 3 2 2 3
      [1, 2, 3, 4, 5, 6] [7, 8, 9, 10, 11, (12 : Int)] = some [0, 0, 0, 154] :=
  ⟨rfl, by decide, by decide, by decide, by decide, by decide, by decide, by decide, by decide,
    (matrix_multiply_computes_dot_product (get_global_id (1, 1)) [0, 0, 0, 0]
      [1, 2, 3, 4, 5, 6] [7, 8, 9, 10, 11, (12 : Int)] 3 2 2 3 rfl (by decide) (by decide)
      (by decide) (by decide) (by decide) (by decide) (by decide) (by decide)).2.1.trans
      (by decide)⟩

/-- Evidence for C2 (a defect of the code): in the run in which every call succeeds, the
transfer issued after the dispatch (line 135) is `clEnqueueWriteBuffer` on `buffer_C` with the
host matrix `C` as its source, a host-to-device write; and no run of `main` issues a
`clEnqueueReadBuffer`. -/
theorem transfer_after_dispatch_is_a_write :
    (main okRuntime).calls =
      [Call.clGetPlatformIDs 1,
       Call.clGetDeviceIDs 1 DeviceType.CL_DEVICE_TYPE_GPU 1,
       Call.clCreateContext 1 1 2,
       Call.clCreateCommandQueue 3 2 0,
       Call.clCreateBuffer 3 MemFlags.CL_MEM_READ_ONLY 4194304,
       Call.clCreateBuffer 3 MemFlags.CL_MEM_READ_ONLY 4194304,
       Call.clCreateBuffer 3 MemFlags.CL_MEM_WRITE_ONLY 4194304,
       Call.clEnqueueWriteBuffer 4 5 true 0 4194304 HostPtr.A,
       Call.clEnqueueWriteBuffer 4 6 true 0 4194304 HostPtr.B,
       Call.clCreateProgramWithSource 3 1,
       Call.clBuildProgram 8 0,
       Call.clCreateKernel 8 "matrix_multiply",
       Call.clSetKernelArg 9 0 CType.cl_mem HostVar.buffer_C (ArgValue.mem 7),
       Call.clSetKernelArg 9 1 CType.cl_int HostVar.width_A (ArgValue.int 1024),
       Call.clSetKernelArg 9 2 CType.cl_int HostVar.height_A (ArgValue.int 1024),
       Call.clSetKernelArg 9 3 CType.cl_int HostVar.width_B (ArgValue.int 1024),
       Call.clSetKernelArg 9 4 CType.cl_int HostVar.height_B (ArgValue.int 1024),
       Call.clSetKernelArg 9 5 CType.cl_mem HostVar.buffer_A (ArgValue.mem 5),
       Call.clSetKernelArg 9 6 CType.cl_mem HostVar.buffer_B (ArgValue.mem 6),
       Call.clEnqueueNDRangeKernel 4 9 2 [1024, 1024] [16, 16],
       Call.clEnqueueWriteBuffer 4 7 true 0 4194304 HostPtr.C,
       Call.clReleaseKernel 9,
       Call.clReleaseProgram 8,
       Call.clReleaseCommandQueue 4,
       Call.clReleaseMemObject 5,
       Call.clReleaseMemObject 6,
       Call.clReleaseMemObject 7,
       Call.clReleaseContext 3] ∧
    (main okRuntime).ret = 0 ∧
    ∀ rt : Runtime, (main rt).calls.any Call.isReadBuffer = false :=
  ⟨by decide, by decide, never_reads⟩

/-- Evidence for C3 (a defect of the code): when one of the three `clCreateBuffer` calls fails
and every other call succeeds, `main` returns 0.  The status of an allocation is overwritten
before any test of `err` (lines 82-86). -/
theorem failed_allocation_returns_zero (b : HostPtr) :
    (allocFails HostPtr.A).clCreateBuffer_A.errcode_ret ≠ CL_SUCCESS ∧
    (allocFails HostPtr.B).clCreateBuffer_B.errcode_ret ≠ CL_SUCCESS ∧
    (allocFails HostPtr.C).clCreateBuffer_C.errcode_ret ≠ CL_SUCCESS ∧
    (main (allocFails b)).ret = 0 := by
  cases b <;> decide

/-- Claim C4. On every path through `main`, given that a failed creation call returns `NULL`:
the calls of `main` are the pipeline calls followed by the seven release calls of lines 143-149,
once each and in that order; the pipeline calls hold no release call; and the handle passed to
each release call is the one the runtime returned when the resource was acquired (its creation
call was issued and succeeded), and `NULL` otherwise. -/
theorem cleanup_exactly_once (rt : Runtime) (h : rt.NullOnFailure) :
    (main rt).calls = (main_body rt).calls ++
      [Call.clReleaseKernel (held (issued (main_body rt).calls .kernel) rt.clCreateKernel),
       Call.clReleaseProgram
         (held (issued (main_body rt).calls .program) rt.clCreateProgramWithSource),
       Call.clReleaseCommandQueue
         (held (issued (main_body rt).calls .cmd_queue) rt.clCreateCommandQueue),
       Call.clReleaseMemObject (held (issued (main_body rt).calls .buffer) rt.clCreateBuffer_A),
       Call.clReleaseMemObject (held (issued (main_body rt).calls .buffer) rt.clCreateBuffer_B),
       Call.clReleaseMemObject (held (issued (main_body rt).calls .buffer) rt.clCreateBuffer_C),
       Call.clReleaseContext (held (issued (main_body rt).calls .context) rt.clCreateContext)] ∧
    ∀ c ∈ (main_body rt).calls, c.isRelease = false := by
  obtain ⟨h1, h2, h3, h4, h5, h6, h7⟩ := h
  rw [main_calls]
  apply main_body_cases rt (fun s => (cleanup s).calls = s.calls ++
      [Call.clReleaseKernel (held (issued s.calls .kernel) rt.clCreateKernel),
       Call.clReleaseProgram (held (issued s.calls .program) rt.clCreateProgramWithSource),
       Call.clReleaseCommandQueue (held (issued s.calls .cmd_queue) rt.clCreateCommandQueue),
       Call.clReleaseMemObject (held (issued s.calls .buffer) rt.clCreateBuffer_A),
       Call.clReleaseMemObject (held (issued s.calls .buffer) rt.clCreateBuffer_B),
       Call.clReleaseMemObject (held (issued s.calls .buffer) rt.clCreateBuffer_C),
       Call.clReleaseContext (held (issued s.calls .context) rt.clCreateContext)] ∧
    ∀ c ∈ s.calls, c.isRelease = false)
  all_goals
    intros
    simp [afterPlatform, afterDevice, afterContext, afterQueue, afterWrites, afterProgram,
      afterBuild, afterKernel, afterArgs, afterDispatch, afterTransfer, issued, Call.creates,
      Call.isRelease, held_true, held_false, *]

/-- Witness for C4: the run in which `clCreateKernel` fails.  The kernel was never acquired and
is released as `NULL`; the six resources acquired before are released with their handles. -/
theorem cleanup_exactly_once_witness :
    kernelFails.NullOnFailure ∧
    (main kernelFails).calls = (main_body kernelFails).calls ++
      [Call.clReleaseKernel NULL, Call.clReleaseProgram 8, Call.clReleaseCommandQueue 4,
       Call.clReleaseMemObject 5, Call.clReleaseMemObject 6, Call.clReleaseMemObject 7,
       Call.clReleaseContext 3] :=
  have hN : kernelFails.NullOnFailure := by
    simp [Runtime.NullOnFailure, Created.NullOnFailure, kernelFails, okRuntime, CL_SUCCESS]
  ⟨hN, (cleanup_exactly_once kernelFails hN).1.trans (by decide)⟩

/-- Counterexample to C6 as stated.  In the run in which the write of buffer A fails, the write
of buffer B is still issued after it; in the run in which binding argument 0 fails, arguments
1 to 6 are still bound after it. -/
theorem failed_call_is_followed_by_pipeline_calls :
    writeAFails.clEnqueueWriteBuffer_A ≠ CL_SUCCESS ∧
    (main writeAFails).calls.drop 7 =
      [Call.clEnqueueWriteBuffer 4 5 true 0 4194304 HostPtr.A,
       Call.clEnqueueWriteBuffer 4 6 true 0 4194304 HostPtr.B,
       Call.clReleaseKernel 0,
       Call.clReleaseProgram 0,
       Call.clReleaseCommandQueue 4,
       Call.clReleaseMemObject 5,
       Call.clReleaseMemObject 6,
       Call.clReleaseMemObject 7,
       Call.clReleaseContext 3] ∧
    firstArgFails.clSetKernelArg 0 ≠ CL_SUCCESS ∧
    (main firstArgFails).calls.drop 12 =
      [Call.clSetKernelArg 9 0 CType.cl_mem HostVar.buffer_C (ArgValue.mem 7),
       Call.clSetKernelArg 9 1 CType.cl_int HostVar.width_A (ArgValue.int 1024),
       Call.clSetKernelArg 9 2 CType.cl_int HostVar.height_A (ArgValue.int 1024),
       Call.clSetKernelArg 9 3 CType.cl_int HostVar.width_B (ArgValue.int 1024),
       Call.clSetKernelArg 9 4 CType.cl_int HostVar.height_B (ArgValue.int 1024),
       Call.clSetKernelArg 9 5 CType.cl_mem HostVar.buffer_A (ArgValue.mem 5),
       Call.clSetKernelArg 9 6 CType.cl_mem HostVar.buffer_B (ArgValue.mem 6),
       Call.clReleaseKernel 9,
       Call.clReleaseProgram 8,
       Call.clReleaseCommandQueue 4,
       Call.clReleaseMemObject 5,
       Call.clReleaseMemObject 6,
       Call.clReleaseMemObject 7,
       Call.clReleaseContext 3] := by
  refine ⟨by decide, by decide, by decide, by decide⟩

/-- Claim C6, amended.  Failure short-circuits at the tests of `err`: when the accumulated
status of stage `k` (entry `k` of `stageCodes`) is not `CL_SUCCESS`, the calls of `main` are
pipeline calls of stages `0 .. k` only, followed by nothing but the build-log query (present
only when the build failed) and the release calls. -/
theorem failed_stage_short_circuits (rt : Runtime) (k : Nat)
    (hk : (stageCodes rt).getD k CL_SUCCESS ≠ CL_SUCCESS) :
    ∃ body tail, (main rt).calls = body ++ tail ∧
      (∀ c ∈ body, ∃ j, c.stage = some j ∧ j ≤ k) ∧
      (∀ c ∈ tail, c.isRelease = true ∨
        (c.isBuildLogQuery = true ∧ rt.clBuildProgram ≠ CL_SUCCESS)) := by
  obtain ⟨m, body, tail, heq, hbody, htail, hz⟩ := stage_calls_aux rt
  refine ⟨body, tail, heq, ?_, htail⟩
  have hmk : m ≤ k := by
    by_contra hlt
    exact hk (take_all_zero_of_getD (by omega) hz)
  intro c hc
  obtain ⟨j, hj, hjm⟩ := hbody c hc
  exact ⟨j, hj, by omega⟩

/-- Witness for C6, amended: the run in which the write of buffer A fails, at the device-memory
stage (`k = 4`). -/
theorem failed_stage_short_circuits_witness :
    (stageCodes writeAFails).getD 4 CL_SUCCESS ≠ CL_SUCCESS ∧
    ∃ body tail, (main writeAFails).calls = body ++ tail ∧
      (∀ c ∈ body, ∃ j, c.stage = some j ∧ j ≤ 4) ∧
      (∀ c ∈ tail, c.isRelease = true ∨
        (c.isBuildLogQuery = true ∧ writeAFails.clBuildProgram ≠ CL_SUCCESS)) :=
  have hk : (stageCodes writeAFails).getD 4 CL_SUCCESS ≠ CL_SUCCESS := by
    simp [stageCodes, writeAFails, okRuntime, CL_SUCCESS, lor_eq_zero]
  ⟨hk, failed_stage_short_circuits writeAFails 4 hk⟩

/-- Claim C7. On every run that reaches the dispatch, the kernel was extracted under the entry
point name `matrix_multiply`, and the arguments bound to it before the dispatch are slots
`0 .. 6` in this order, once each, with `[0] = buffer_C`, `[1] = width_A`, `[2] = height_A`,
`[3] = width_B`, `[4] = height_B`, `[5] = buffer_A`, `[6] = buffer_B`; nothing else is bound in
the run; and the bindings agree position by position, in meaning and in type, with the
parameter list of the kernel `matrix_multiply`. -/
theorem kernel_args_match_signature (rt : Runtime)
    (hd : (main rt).calls.any Call.isDispatch = true) :
    (main rt).calls.filterMap Call.kernelName = ["matrix_multiply"] ∧
    boundArgs ((main rt).calls.takeWhile (fun c => !c.isDispatch)) =
      [⟨rt.clCreateKernel.handle, 0, .cl_mem, .buffer_C, .mem rt.clCreateBuffer_C.handle⟩,
       ⟨rt.clCreateKernel.handle, 1, .cl_int, .width_A, .int width_A⟩,
       ⟨rt.clCreateKernel.handle, 2, .cl_int, .height_A, .int height_A⟩,
       ⟨rt.clCreateKernel.handle, 3, .cl_int, .width_B, .int width_B⟩,
       ⟨rt.clCreateKernel.handle, 4, .cl_int, .height_B, .int height_B⟩,
       ⟨rt.clCreateKernel.handle, 5, .cl_mem, .buffer_A, .mem rt.clCreateBuffer_A.handle⟩,
       ⟨rt.clCreateKernel.handle, 6, .cl_mem, .buffer_B, .mem rt.clCreateBuffer_B.handle⟩] ∧
    boundArgs (main rt).calls = boundArgs ((main rt).calls.takeWhile (fun c => !c.isDispatch)) ∧
    (boundArgs (main rt).calls).map BoundArg.arg_index = List.range 7 ∧
    List.Forall₂ BoundArg.agrees (boundArgs (main rt).calls) matrix_multiply_params := by
  have h1 := bound_args_before_dispatch rt hd
  have h2 := bound_args_whole_run rt
  refine ⟨kernel_name_of_dispatched rt hd, h1, h2, ?_, ?_⟩
  · rw [h2, h1]; rfl
  · rw [h2, h1]
    simp [matrix_multiply_params, BoundArg.agrees, HostVar.param, ParamType.ctype,
      ArgValue.ctype]

/-- Witness for C7: the run in which every call succeeds reaches the dispatch. -/
theorem kernel_args_match_signature_witness :
    (main okRuntime).calls.any Call.isDispatch = true ∧
    List.Forall₂ BoundArg.agrees (boundArgs (main okRuntime).calls) matrix_multiply_params :=
  ⟨by decide, (kernel_args_match_signature okRuntime (by decide)).2.2.2.2⟩

/-- Claim C8. Exactly one work-item computes each output element.  A run dispatches the kernel
at most once (exactly once when the nine stages before the dispatch succeed), with global work
size `(width_C, height_C) = (width_B, height_A)`.  With the configured dimensions and buffers of
the sizes `main` allocates: every work-item `(col, row)` of that range, run as the kernel
`matrix_multiply`, computes its store index in 32 bits as `row * width_B + col`, returns, and
changes `output_C` at that index only, where it stores its dot product; the map sending a
work-item of the range to the index it writes is a bijection onto the indices
`0 .. width_C * height_C - 1`; and after the work-items of any schedule covering the range have
run, every element of the output buffer holds the dot product of its own work-item.  The
written index is a bijection for every `W x H` range with `width_B = W` and `W * H < 2^31`. -/
theorem one_work_item_per_output_element {α : Type} [Zero α] [Add α] [Mul α] (rt : Runtime)
    (output_C input_A input_B : List α)
    (hA_len : input_A.length = (width_A * height_A).toNat)
    (hB_len : input_B.length = (width_B * height_B).toNat)
    (hC_len : output_C.length = (width_C * height_C).toNat) :
    ((main rt).calls.filterMap Call.globalWorkSize =
      if ∀ e ∈ (stageCodes rt).take 9, e = CL_SUCCESS
      then [[width_C.toNat, height_C.toNat]] else []) ∧
    width_C = width_B ∧ height_C = height_A ∧
    (∀ col row : ℕ, (col : ℤ) < width_C → (row : ℤ) < height_C →
      index_C (wrap32 (row : ℤ)) width_B (wrap32 (col : ℤ)) = (row : ℤ) * width_B + (col : ℤ) ∧
      matrix_multiply (get_global_id (col, row)) output_C width_A height_A width_B height_B
          input_A input_B
        = some (output_C.set (index_C (wrap32 (row : ℤ)) width_B (wrap32 (col : ℤ))).toNat
            (dotProductRef input_A input_B width_A.toNat width_B.toNat row col))) ∧
    Set.BijOn (fun p : ℕ × ℕ => index_C (wrap32 (p.2 : ℤ)) width_B (wrap32 (p.1 : ℤ)))
      {p | (p.1 : ℤ) < width_C ∧ (p.2 : ℤ) < height_C}
      {z : ℤ | 0 ≤ z ∧ z < width_C * height_C} ∧
    (∀ sched : List (ℕ × ℕ),
      (∀ col row : ℕ, (col, row) ∈ sched ↔ (col : ℤ) < width_C ∧ (row : ℤ) < height_C) →
      ∃ C', runWorkItems (fun g out => matrix_multiply g out width_A height_A width_B height_B
            input_A input_B) sched output_C = some C' ∧
        C'.length = output_C.length ∧
        ∀ col row : ℕ, (col : ℤ) < width_C → (row : ℤ) < height_C →
          C'[(index_C (wrap32 (row : ℤ)) width_B (wrap32 (col : ℤ))).toNat]?
            = some (dotProductRef input_A input_B width_A.toNat width_B.toNat row col)) ∧
    ∀ W H : ℕ, W * H < 2147483648 →
      Set.BijOn (fun p : ℕ × ℕ => index_C (wrap32 (p.2 : ℤ)) (W : ℤ) (wrap32 (p.1 : ℤ)))
        {p | p.1 < W ∧ p.2 < H} {z : ℤ | 0 ≤ z ∧ z < (W : ℤ) * (H : ℤ)} := by
  have hA1 : input_A.length = 1024 * 1024 := hA_len.trans (by decide)
  have hB1 : input_B.length = 1024 * 1024 := hB_len.trans (by decide)
  have hC1 : output_C.length = 1024 * 1024 := hC_len.trans (by decide)
  have hfit : 1024 * 1024 < 2147483648 := by decide
  have hlt : ∀ k : ℕ, (k : ℤ) < 1024 ↔ k < 1024 := fun k => by omega
  have hset : {p : ℕ × ℕ | (p.1 : ℤ) < width_C ∧ (p.2 : ℤ) < height_C}
      = {p : ℕ × ℕ | p.1 < 1024 ∧ p.2 < 1024} := by
    ext p
    exact and_congr (hlt p.1) (hlt p.2)
  have hcast : ∀ col row : ℕ,
      ((row * 1024 + col : ℕ) : ℤ) = (row : ℤ) * ((1024 : ℕ) : ℤ) + (col : ℤ) := by
    intro col row; push_cast; rfl
  refine ⟨dispatch_sizes rt, rfl, rfl, ?_, ?_, ?_, index_C_bijOn⟩
  · intro col row hc hr
    have hc1 : col < 1024 := (hlt col).1 hc
    have hr1 : row < 1024 := (hlt row).1 hr
    have hidx := index_C_of_lt hfit hc1 hr1
    obtain ⟨-, -, hres⟩ := matrix_multiply_of_fit (get_global_id (col, row)) output_C input_A
      input_B 1024 1024 1024 1024 rfl hA1 hB1 hC1 hfit hfit hfit hc1 hr1
    show index_C (wrap32 (row : ℤ)) ((1024 : ℕ) : ℤ) (wrap32 (col : ℤ))
        = (row : ℤ) * ((1024 : ℕ) : ℤ) + (col : ℤ) ∧
      matrix_multiply (get_global_id (col, row)) output_C ((1024 : ℕ) : ℤ) ((1024 : ℕ) : ℤ)
          ((1024 : ℕ) : ℤ) ((1024 : ℕ) : ℤ) input_A input_B
        = some (output_C.set
            (index_C (wrap32 (row : ℤ)) ((1024 : ℕ) : ℤ) (wrap32 (col : ℤ))).toNat
            (dotProductRef input_A input_B 1024 1024 row col))
    rw [hidx, Int.toNat_ofNat]
    exact ⟨hcast col row, hres⟩
  · rw [hset]
    exact index_C_bijOn 1024 1024 hfit
  · intro sched hsched
    obtain ⟨C', hrun, hlen, hval⟩ := runWorkItems_result 1024 1024 1024 input_A input_B
      hA1 hB1 hfit hfit hfit sched output_C hC1
      (fun p hp => ⟨(hlt p.1).1 ((hsched p.1 p.2).1 hp).1, (hlt p.2).1 ((hsched p.1 p.2).1 hp).2⟩)
    refine ⟨C', hrun, hlen.trans hC1.symm, ?_⟩
    intro col row hc hr
    have hc1 : col < 1024 := (hlt col).1 hc
    have hr1 : row < 1024 := (hlt row).1 hr
    have hidx := index_C_of_lt hfit hc1 hr1
    have hv := hval col row hc1 hr1
    rw [if_pos ((hsched col row).2 ⟨hc, hr⟩)] at hv
    show C'[(index_C (wrap32 (row : ℤ)) ((1024 : ℕ) : ℤ) (wrap32 (col : ℤ))).toNat]?
      = some (dotProductRef input_A input_B 1024 1024 row col)
    rw [hidx, Int.toNat_ofNat]
    exact hv

/-- Witness for C8: the run in which every call succeeds, buffers of `1024 * 1024` zeros.  The
single dispatch has global work size `[1024, 1024]`, and the last work-item `(1023, 1023)`
writes the last element, index `1048575`. -/
theorem one_work_item_per_output_element_witness :
    (List.replicate 1048576 (0 : Int)).length = (width_A * height_A).toNat ∧
    (List.replicate 1048576 (0 : Int)).length = (width_B * height_B).toNat ∧
    (List.replicate 1048576 (0 : Int)).length = (width_C * height_C).toNat ∧
    (main okRuntime).calls.filterMap Call.globalWorkSize = [[1024, 1024]] ∧
    index_C (wrap32 ((1023 : ℕ) : ℤ)) width_B (wrap32 ((1023 : ℕ) : ℤ)) = 1048575 :=
  have hlen : (List.replicate 1048576 (0 : Int)).length = (width_A * height_A).toNat := by
    rw [List.length_replicate]; decide
  have h := one_work_item_per_output_element okRuntime (List.replicate 1048576 (0 : Int))
    (List.replicate 1048576 (0 : Int)) (List.replicate 1048576 (0 : Int)) hlen hlen hlen
  ⟨hlen, hlen, hlen, h.1.trans (by decide),
    (h.2.2.2.1 1023 1023 (by decide) (by decide)).1.trans (by decide)⟩

/-- Counterexample to C9 as stated.  For `n = 32769` and `m = 65536`, with `input_A` the
`n x n` identity, `input_B` an `n x m` matrix `M` and the full `(m, n)` grid, the run of the
kernel does not yield `M`: the work-item `(col, row) = (0, 32768)` of the grid computes its
store index `row * m + col` in 32 bits, obtains `-2147483648`, and fails. -/
theorem identity_times_matrix_index_wraps :
    (List.replicate 2147549184 (0 : Int)).length = 32769 * 65536 ∧
    (∀ c r, (c, r) ∈ workItems 65536 32769 ↔ c < 65536 ∧ r < 32769) ∧
    index_C (wrap32 (get_global_id (0, 32768) 1)) 65536 (wrap32 (get_global_id (0, 32768) 0))
      = -2147483648 ∧
    runWorkItems (fun g out => matrix_multiply g out 32769 32769 65536 32769
        (identityMatrix 32769) (List.replicate 2147549184 (0 : Int)))
      (workItems 65536 32769) (List.replicate 2147549184 0) = none ∧
    runWorkItems (fun g out => matrix_multiply g out 32769 32769 65536 32769
        (identityMatrix 32769) (List.replicate 2147549184 (0 : Int)))
      (workItems 65536 32769) (List.replicate 2147549184 0)
      ≠ some (List.replicate 2147549184 0) :=
  have hrun : runWorkItems (fun g out => matrix_multiply g out 32769 32769 65536 32769
        (identityMatrix 32769) (List.replicate 2147549184 (0 : Int)))
      (workItems 65536 32769) (List.replicate 2147549184 0) = none :=
    runWorkItems_none_of_mem _ (0, 32768)
      (fun out => matrix_multiply_none_of_neg _ out _ _ _ _ _ _ (by decide)) _ _
      ((mem_workItems 65536 32769 0 32768).2 ⟨by decide, by decide⟩)
  ⟨by rw [List.length_replicate], mem_workItems 65536 32769, by decide, hrun,
    fun h => Option.noConfusion (hrun.symm.trans h)⟩

/-- Claim C9, amended.  Multiplying by the identity returns the other operand when no index
computation overflows.  For every `n` and `m` with `n * n` and `n * m` below `2^31` and every
row-major `n x m` matrix `M`: running the kernel with `input_A` the `n x n` identity
(`width_A = height_A = height_B = n`, `width_B = m`) and `input_B = M`, by the work-items of
any schedule that covers the `(m, n)` grid, on any output buffer of `n * m` elements, ends with
the output buffer equal to `M`. -/
theorem identity_times_matrix {α : Type} [Semiring α] (n m : Nat) (M output_C : List α)
    (sched : List (Nat × Nat))
    (hA_fit : n * n < 2147483648) (hM_fit : n * m < 2147483648)
    (hM : M.length = n * m) (hC : output_C.length = n * m)
    (hsched : ∀ c r, (c, r) ∈ sched ↔ c < m ∧ r < n) :
    runWorkItems (fun g out => matrix_multiply g out n n m n (identityMatrix n) M) sched output_C
      = some M := by
  obtain ⟨C', hrun, hlen, hval⟩ := runWorkItems_result n n m (identityMatrix n) M
    (by simp [identityMatrix]) hM hA_fit hM_fit hM_fit sched output_C hC
    (fun p hp => (hsched p.1 p.2).1 hp)
  rw [hrun]
  congr 1
  apply List.ext_getElem?
  intro j
  by_cases hj : j < n * m
  · have hm : 0 < m := by
      rcases Nat.eq_zero_or_pos m with h | h
      · subst h; simp at hj
      · exact h
    have hc : j % m < m := Nat.mod_lt _ hm
    have hr : j / m < n := by
      rw [Nat.div_lt_iff_lt_mul hm]; exact hj
    have hjd : j / m * m + j % m = j := Nat.div_add_mod' j m
    have h := hval (j % m) (j / m) hc hr
    rw [hjd] at h
    rw [h, if_pos ((hsched _ _).2 ⟨hc, hr⟩), dotProductRef_identity n m _ _ M hr, hjd,
      List.getD_eq_getElem?_getD, List.getElem?_eq_getElem (by omega)]
    simp
  · rw [List.getElem?_eq_none (by omega), List.getElem?_eq_none (by omega)]

/-- Witness for C9, amended: `n = m = 2`, the full `(2, 2)` grid, `M = [[5, 6], [7, 8]]`. -/
theorem identity_times_matrix_witness :
    2 * 2 < 2147483648 ∧
    ([5, 6, 7, 8] : List Int).length = 2 * 2 ∧ ([0, 0, 0, 0] : List Int).length = 2 * 2 ∧
    (∀ c r, (c, r) ∈ workItems 2 2 ↔ c < 2 ∧ r < 2) ∧
    runWorkItems (fun g out => matrix_multiply g out ((2 : Nat) : Int) ((2 : Nat) : Int)
        ((2 : Nat) : Int) ((2 : Nat) : Int) (identityMatrix 2) [5, 6, 7, (8 : Int)])
      (workItems 2 2) [0, 0, 0, 0] = some [5, 6, 7, 8] :=
  ⟨by decide, by decide, by decide, mem_workItems 2 2,
    identity_times_matrix 2 2 [5, 6, 7, (8 : Int)] [0, 0, 0, 0] (workItems 2 2) (by decide)
      (by decide) (by decide) (by decide) (mem_workItems 2 2)⟩

/-- Counterexample to C10 as stated.  Positive dimensions with `height_B = width_A` and a
work-item inside the range for which the kernel indexes outside its buffers.  With
`width_A = height_B = 1`, `height_A = 32769`, `width_B = 65536` and work-item
`(col, row) = (0, 32768)`, the 32-bit write index `row * width_B + col` is `-2147483648`, the
store is outside `output_C` and the work-item fails.  With `width_A = height_B = 65536`,
`height_A = 32769`, `width_B = 1`, the same work-item and `i = 0`, the 32-bit read index
`row * width_A + i` is `-2147483648`, the load is outside `input_A` and the work-item fails. -/
theorem kernel_index_out_of_bounds :
    ((get_global_id (0, 32768) 0 : Int) < 65536 ∧ (get_global_id (0, 32768) 1 : Int) < 32769 ∧
      (List.replicate 2147549184 (0 : Int)).length = ((65536 : Int) * 32769).toNat) ∧
    index_C (wrap32 (get_global_id (0, 32768) 1)) 65536 (wrap32 (get_global_id (0, 32768) 0))
      = -2147483648 ∧
    store (List.replicate 2147549184 (0 : Int))
      (index_C (wrap32 (get_global_id (0, 32768) 1)) 65536 (wrap32 (get_global_id (0, 32768) 0)))
      0 = none ∧
    (matrix_multiply (get_global_id (0, 32768)) (List.replicate 2147549184 (0 : Int))
      1 32769 65536 1 (List.replicate 32769 0) (List.replicate 65536 0)).isSome = false ∧
    ((get_global_id (0, 32768) 0 : Int) < 1 ∧ (get_global_id (0, 32768) 1 : Int) < 32769 ∧
      (0 : Int) < 65536) ∧
    index_A (wrap32 (get_global_id (0, 32768) 1)) 65536 0 = -2147483648 ∧
    load (List.replicate 2147549184 (0 : Int))
      (index_A (wrap32 (get_global_id (0, 32768) 1)) 65536 0) = none ∧
    (matrix_multiply (get_global_id (0, 32768)) (List.replicate 32769 (0 : Int))
      65536 32769 1 65536 (List.replicate 2147549184 0) (List.replicate 65536 0)).isSome
      = false :=
  ⟨⟨by decide, by decide, by rw [List.length_replicate]; decide⟩, by decide,
    by rw [store, if_neg (by decide)],
    by rw [matrix_multiply_none_of_neg _ _ _ _ _ _ _ _ (by decide)]; rfl,
    ⟨by decide, by decide, by decide⟩, by decide,
    by rw [load, if_neg (by decide)],
    by rw [matrix_multiply_none_of_neg_load _ _ _ _ _ _ _ _ (by decide) (by decide)]; rfl⟩

/-- Claim C10, amended.  The kernel never indexes outside its buffers when the element counts
fit in 32 bits.  For all dimensions with `hB = wA` whose element counts `wA * hA`, `wB * hB` and
`wB * hA` are below `2^31`, every work-item with `col = gid 0 < wB` and `row = gid 1 < hA` and
every loop index `i < wA` (so that the four dimensions are positive): the two read indices and
the write index, computed in 32 bits, are `row * wA + i`, `i * wB + col` and `row * wB + col`
and lie inside buffers of `wA * hA`, `wB * hB` and `wB * hA` elements; the increment `i + 1`
does not overflow; both loads succeed and the work-item completes without an out-of-bounds
access.  The configured `1024 x 1024` matrices are positive dimensions with element counts
below `2^31`. -/
theorem kernel_indices_in_bounds {α : Type} [Zero α] [Add α] [Mul α]
    (gid : Nat → Nat) (output_C input_A input_B : List α) (wA hA wB hB i : Nat)
    (hdim : hB = wA)
    (hA_fit : wA * hA < 2147483648) (hB_fit : wB * hB < 2147483648)
    (hC_fit : wB * hA < 2147483648)
    (hA_len : input_A.length = wA * hA) (hB_len : input_B.length = wB * hB)
    (hC_len : output_C.length = wB * hA)
    (hcol : gid 0 < wB) (hrow : gid 1 < hA) (hi : i < wA) :
    (index_A (wrap32 (gid 1)) wA i = (gid 1 : Int) * wA + i ∧
      0 ≤ index_A (wrap32 (gid 1)) wA i ∧ index_A (wrap32 (gid 1)) wA i < (wA : Int) * hA) ∧
    (index_B i wB (wrap32 (gid 0)) = (i : Int) * wB + gid 0 ∧
      0 ≤ index_B i wB (wrap32 (gid 0)) ∧ index_B i wB (wrap32 (gid 0)) < (wB : Int) * hB) ∧
    (index_C (wrap32 (gid 1)) wB (wrap32 (gid 0)) = (gid 1 : Int) * wB + gid 0 ∧
      0 ≤ index_C (wrap32 (gid 1)) wB (wrap32 (gid 0)) ∧
      index_C (wrap32 (gid 1)) wB (wrap32 (gid 0)) < (wB : Int) * hA) ∧
    wrap32 ((i : Int) + 1) = (i : Int) + 1 ∧
    (load input_A (index_A (wrap32 (gid 1)) wA i)).isSome = true ∧
    (load input_B (index_B i wB (wrap32 (gid 0)))).isSome = true ∧
    (matrix_multiply gid output_C wA hA wB hB input_A input_B).isSome = true ∧
    ((0 : Int) < width_A ∧ (0 : Int) < height_A ∧ (0 : Int) < width_B ∧ (0 : Int) < height_B ∧
      height_B = width_A ∧ width_A * height_A < 2147483648 ∧
      width_B * height_B < 2147483648 ∧ width_B * height_A < 2147483648) := by
  have hiB : i < hB := by omega
  have hhA : hA ≤ wA * hA := Nat.le_mul_of_pos_left hA (by omega)
  have hwA : wA ≤ wA * hA := Nat.le_mul_of_pos_right wA (by omega)
  have hwB : wB ≤ wB * hA := Nat.le_mul_of_pos_right wB (by omega)
  have hg1 : gid 1 < 2147483648 := by omega
  have hg0 : gid 0 < 2147483648 := by omega
  have hi1 : (-2147483648 : Int) ≤ (i : Int) + 1 := by omega
  have hi2 : (i : Int) + 1 < 2147483648 := by omega
  have hltA : gid 1 * wA + i < input_A.length := by
    rw [hA_len, Nat.mul_comm wA hA]; exact index_lt_of_lt hrow hi
  have hltB : i * wB + gid 0 < input_B.length := by
    rw [hB_len, Nat.mul_comm wB hB]; exact index_lt_of_lt hiB hcol
  have hfA : gid 1 * wA + i < 2147483648 := by omega
  have hfB : i * wB + gid 0 < 2147483648 := by omega
  have hsome := (matrix_multiply_of_fit gid output_C input_A input_B wA hA wB hB hdim.symm
    (by rw [hA_len, Nat.mul_comm]) (by rw [hB_len, Nat.mul_comm]) (by rw [hC_len, Nat.mul_comm])
    (by rw [Nat.mul_comm]; exact hA_fit) (by rw [Nat.mul_comm]; exact hB_fit)
    (by rw [Nat.mul_comm]; exact hC_fit) hcol hrow).2.2
  have bA := index_of_fit hrow hi hA_fit
  have bB := index_of_fit hiB hcol hB_fit
  have bC := index_of_fit hrow hcol hC_fit
  have hr32 : wrap32 ((gid 1 : Nat) : Int) = ((gid 1 : Nat) : Int) := wrap32_natCast hg1
  have hc32 : wrap32 ((gid 0 : Nat) : Int) = ((gid 0 : Nat) : Int) := wrap32_natCast hg0
  have eA : index_A (gid 1 : Int) (wA : Int) (i : Int) = ((gid 1 * wA + i : Nat) : Int) := by
    rw [index_A, wrap32_index hfA]
  have eB : index_B (i : Int) (wB : Int) (gid 0 : Int) = ((i * wB + gid 0 : Nat) : Int) := by
    rw [index_B, wrap32_index hfB]
  rw [hr32, hc32]
  refine ⟨bA, bB, bC, wrap32_eq hi1 hi2, ?_, ?_, ?_, ?_⟩
  · rw [load_of_lt input_A _ _ eA hltA]; rfl
  · rw [load_of_lt input_B _ _ eB hltB]; rfl
  · rw [hsome]; rfl
  · decide

/-- Witness for C10, amended: the configured dimensions, buffers of `1024 * 1024` zeros, the
last work-item `(1023, 1023)` and the last loop index. -/
theorem kernel_indices_in_bounds_witness :
    ((1024 : Nat) = 1024) ∧ 1024 * 1024 < 2147483648 ∧
    (List.replicate 1048576 (0 : Int)).length = 1024 * 1024 ∧
    get_global_id (1023, 1023) 0 < 1024 ∧ get_global_id (1023, 1023) 1 < 1024 ∧
    (1023 : Nat) < 1024 ∧
    (matrix_multiply (get_global_id (1023, 1023)) (List.replicate 1048576 (0 : Int))
      width_A height_A width_B height_B (List.replicate 1048576 0)
      (List.replicate 1048576 0)).isSome = true :=
  have hlen : (List.replicate 1048576 (0 : Int)).length = 1024 * 1024 := by
    rw [List.length_replicate]
  ⟨rfl, by decide, hlen, by decide, by decide, by decide,
    (kernel_indices_in_bounds (get_global_id (1023, 1023))
      (List.replicate 1048576 (0 : Int)) (List.replicate 1048576 0) (List.replicate 1048576 0)
      1024 1024 1024 1024 1023 rfl (by decide) (by decide) (by decide) hlen hlen hlen
      (by decide) (by decide) (by decide)).2.2.2.2.2.2.1⟩

end Tutorial2
